import Mathlib

/-!
Verification development for the payment service (`src/payments/`).

The Django views and event handlers are shallowly embedded as pure Lean
functions over an explicit service state.  Fixed-point decimal amounts
(DecimalField with two decimal places) are represented exactly as integer
cents.  The two sources of nondeterminism in the source - the simulated
payment gateway (`process_payment_gateway`, a random success/decline) and
the health of the RabbitMQ broker - are passed in as explicit parameters,
so every operation is a deterministic state transformer.  Database rows
live in lists; `get_or_create` keyed by the unique idempotency key is
modelled as a lookup followed by an append when absent.  Fields of the
models that no view ever reads back (timestamps, `request_data`,
`response_data`, `expires_at`, `gateway_response`) are omitted; the
random unique `reference` is modelled as a string derived from the fresh
payment id.
-/

/-- Payment.PAYMENT_STATUS choices from `src/payments/models.py`. -/
inductive PaymentStatus
  | PENDING
  | SUCCESS
  | FAILED
  | REFUNDED
  | PARTIAL_REFUND
deriving DecidableEq

/-- IdempotencyKey.status values (default PROCESSING; views write COMPLETED or FAILED). -/
inductive IdemStatus
  | PROCESSING
  | COMPLETED
  | FAILED
deriving DecidableEq

/-- A row of the `payments` table (fields the views read or write). -/
structure Payment where
  payment_id : Nat
  order_id : Int
  amount : Int
  method : String
  status : PaymentStatus
  reference : String
  refunded_amount : Int
  failure_reason : Option String
deriving DecidableEq

/-- A row of the `idempotency_keys` table (fields the views read or write). -/
structure IdemRecord where
  key : String
  payment : Option Nat
  status : IdemStatus
deriving DecidableEq

/-- A JSON scalar in an event payload; decimal amounts are exact cents. -/
inductive JVal
  | num (cents : Int)
  | str (s : String)
deriving DecidableEq

/-- A message handed to `publish_payment_event`: routing key and data dict. -/
structure EventMsg where
  event_type : String
  data : List (String × JVal)
deriving DecidableEq

/-- The shared mutable state: both tables, the AutoField counter for
`payment_id`, a count of `process_payment_gateway` invocations, the list of
messages handed to the event publisher, and the sublist of those that
actually reached the broker. -/
structure ServiceState where
  payments : List Payment
  idemKeys : List IdemRecord
  nextPaymentId : Nat
  gatewayCalls : Nat
  events : List EventMsg
  delivered : List EventMsg
deriving DecidableEq

def initialState : ServiceState :=
  { payments := [], idemKeys := [], nextPaymentId := 1, gatewayCalls := 0,
    events := [], delivered := [] }

def findPayment (st : ServiceState) (pid : Nat) : Option Payment :=
  st.payments.find? (fun q => q.payment_id == pid)

def findKey (st : ServiceState) (k : String) : Option IdemRecord :=
  st.idemKeys.find? (fun q => q.key == k)

/-- `payment.save()`: overwrite the row whose primary key matches. -/
def savePayment (st : ServiceState) (p : Payment) : ServiceState :=
  { st with payments :=
      st.payments.map (fun q => if q.payment_id == p.payment_id then p else q) }

/-- `idem_key.save()`: overwrite the record whose unique key matches. -/
def setKey (st : ServiceState) (k : String) (r : IdemRecord) : ServiceState :=
  { st with idemKeys := st.idemKeys.map (fun q => if q.key == k then r else q) }

/-- The raw broker interaction of `publish_payment_event`: connecting and
publishing may fail, modelled by the `brokerOk` flag. -/
def brokerSend (brokerOk : Bool) : Except String Unit :=
  if brokerOk then Except.ok () else Except.error ("connection failed")

/-- `publish_payment_event` from `src/payments/events.py`: every failure is
caught and turned into a `False` return value; the function never raises.
The handed-over message is always recorded in `events`; it lands in
`delivered` only when the broker is reachable. -/
def publish_payment_event (brokerOk : Bool) (msg : EventMsg) (st : ServiceState) :
    Bool × ServiceState :=
  let st1 := { st with events := st.events ++ [msg] }
  match brokerSend brokerOk with
  | Except.ok _ => (true, { st1 with delivered := st1.delivered ++ [msg] })
  | Except.error _ => (false, st1)

/-- Outcome of the (random) `process_payment_gateway`, made an explicit input. -/
inductive GatewayOutcome
  | ok
  | declined (reason : String)
deriving DecidableEq

/-- Validated body of POST /v1/payments/charge (`ChargePaymentSerializer`). -/
structure ChargeRequest where
  order_id : Int
  amount : Int
  method : String
  idempotency_key : String
deriving DecidableEq

def methodChoices : List String := ["CARD", "UPI", "COD", "NET_BANKING"]

/-- `ChargePaymentSerializer.is_valid()`: order_id >= 1, amount a positive
decimal with at most 10 digits, method one of the choices, idempotency key
of length 10..255. -/
def chargeValid (req : ChargeRequest) : Bool :=
  decide (1 ≤ req.order_id) && decide (1 ≤ req.amount) &&
  decide (req.amount ≤ 9999999999) &&
  methodChoices.contains req.method &&
  decide (10 ≤ req.idempotency_key.length) &&
  decide (req.idempotency_key.length ≤ 255)

/-- Validated body of POST /v1/payments/{id}/refund (`RefundPaymentSerializer`). -/
structure RefundRequest where
  amount : Option Int
  reason : Option String
  idempotency_key : String
deriving DecidableEq

/-- `RefundPaymentSerializer.is_valid()`: amount, when supplied, a positive
decimal with at most 10 digits; reason at most 500 characters; idempotency
key present with length 1..255. -/
def refundValid (req : RefundRequest) : Bool :=
  (match req.amount with
   | some a => decide (1 ≤ a) && decide (a ≤ 9999999999)
   | none => true) &&
  (match req.reason with
   | some s => decide (s.length ≤ 500)
   | none => true) &&
  decide (1 ≤ req.idempotency_key.length) && decide (req.idempotency_key.length ≤ 255)

/-- Responses of `charge_payment`, one constructor per `return Response(...)`. -/
inductive ChargeResult
  | validationError
  | replayed (p : Payment)
  | conflict
  | success (p : Payment)
  | paymentFailed (p : Payment)
  | processingError
deriving DecidableEq

/-- The PENDING payment row created by `Payment.objects.create` in
`charge_payment`, with the generated unique reference. -/
def chargePending (st : ServiceState) (req : ChargeRequest) : Payment :=
  { payment_id := st.nextPaymentId, order_id := req.order_id,
    amount := req.amount, method := req.method,
    status := PaymentStatus.PENDING,
    reference := "ECI-" ++ toString st.nextPaymentId,
    refunded_amount := 0, failure_reason := none }

/-- The payment row as finalised by a gateway success. -/
def chargeSuccessPayment (st : ServiceState) (req : ChargeRequest) : Payment :=
  let p0 := chargePending st req
  { p0 with status := PaymentStatus.SUCCESS }

/-- The payment row as finalised by a gateway decline. -/
def chargeFailedPayment (st : ServiceState) (req : ChargeRequest) (reason : String) : Payment :=
  let p0 := chargePending st req
  { p0 with status := PaymentStatus.FAILED, failure_reason := some reason }

/-- The tail of `charge_payment` after the idempotency branches: create the
PENDING payment, link it to the idempotency record, invoke the gateway, and
finalise payment, record and event according to the outcome. -/
def chargeProcess (st : ServiceState) (req : ChargeRequest) (r : IdemRecord)
    (gw : GatewayOutcome) (brokerOk : Bool) : ServiceState × ChargeResult :=
  let pid := st.nextPaymentId
  let p0 := chargePending st req
  let stA := { st with payments := st.payments ++ [p0], nextPaymentId := pid + 1 }
  let r1 : IdemRecord := { r with payment := some pid }
  let stB := setKey stA r.key r1
  let stC := { stB with gatewayCalls := stB.gatewayCalls + 1 }
  match gw with
  | GatewayOutcome.ok =>
      let p1 := { p0 with status := PaymentStatus.SUCCESS }
      let stD := savePayment stC p1
      let stE := setKey stD r.key { r1 with status := IdemStatus.COMPLETED }
      let msg : EventMsg :=
        { event_type := "payment.succeeded",
          data := [("payment_id", JVal.num pid), ("order_id", JVal.num p1.order_id),
                   ("amount", JVal.num p1.amount), ("method", JVal.str p1.method),
                   ("reference", JVal.str p1.reference)] }
      ((publish_payment_event brokerOk msg stE).2, ChargeResult.success p1)
  | GatewayOutcome.declined reason =>
      let p1 := { p0 with status := PaymentStatus.FAILED, failure_reason := some reason }
      let stD := savePayment stC p1
      let stE := setKey stD r.key { r1 with status := IdemStatus.FAILED }
      let msg : EventMsg :=
        { event_type := "payment.failed",
          data := [("payment_id", JVal.num pid), ("order_id", JVal.num p1.order_id),
                   ("amount", JVal.num p1.amount), ("reason", JVal.str reason)] }
      ((publish_payment_event brokerOk msg stE).2, ChargeResult.paymentFailed p1)

/-- `charge_payment` from `src/payments/views.py`.  `get_or_create` on the
idempotency key; an existing COMPLETED record with a linked payment replays
it, an existing PROCESSING record is a 409 conflict, and any other existing
record (in particular a FAILED one) falls through to payment creation. -/
def charge_payment (st : ServiceState) (req : ChargeRequest)
    (gw : GatewayOutcome) (brokerOk : Bool) : ServiceState × ChargeResult :=
  if chargeValid req = false then (st, ChargeResult.validationError) else
  match findKey st req.idempotency_key with
  | some r =>
      if r.status = IdemStatus.COMPLETED then
        match r.payment with
        | some pid =>
            match findPayment st pid with
            | some p => (st, ChargeResult.replayed p)
            | none => (st, ChargeResult.processingError)
        | none => chargeProcess st req r gw brokerOk
      else if r.status = IdemStatus.PROCESSING then (st, ChargeResult.conflict)
      else chargeProcess st req r gw brokerOk
  | none =>
      let r0 : IdemRecord :=
        { key := req.idempotency_key, payment := none, status := IdemStatus.PROCESSING }
      chargeProcess { st with idemKeys := st.idemKeys ++ [r0] } req r0 gw brokerOk

/-- Responses of `refund_payment`, one constructor per `return Response(...)`. -/
inductive RefundResult
  | validationError
  | notFound
  | invalidState
  | replayed (p : Payment)
  | invalidAmount (remaining : Int)
  | refunded (refund_amount : Int) (p : Payment)
deriving DecidableEq

/-- The refund-scoped idempotency key: `f"refund_{payment_id}_{idempotency_key}"`. -/
def refundScopedKey (pid : Nat) (k : String) : String :=
  "refund_" ++ toString pid ++ "_" ++ k

/-- The effective refund amount: the supplied amount, else the remaining
balance (`data.get('amount', payment.amount - payment.refunded_amount)`). -/
def refundAmountOf (p : Payment) (req : RefundRequest) : Int :=
  req.amount.getD (p.amount - p.refunded_amount)

/-- The payment row as mutated by a successful refund: increment
`refunded_amount`, then set status REFUNDED when the new total reaches the
amount, else PARTIAL_REFUND. -/
def refundUpdated (p : Payment) (req : RefundRequest) : Payment :=
  let p1 := { p with refunded_amount := p.refunded_amount + refundAmountOf p req }
  { p1 with status :=
      if p1.amount ≤ p1.refunded_amount then PaymentStatus.REFUNDED
      else PaymentStatus.PARTIAL_REFUND }

/-- The `payment.refunded` message built by `refund_payment`. -/
def refundEventMsg (pid : Nat) (p : Payment) (ra : Int) (reason : String) : EventMsg :=
  { event_type := "payment.refunded",
    data := [("payment_id", JVal.num pid), ("order_id", JVal.num p.order_id),
             ("refund_amount", JVal.num ra), ("total_refunded", JVal.num p.refunded_amount),
             ("reason", JVal.str reason)] }

/-- The tail of `refund_payment` after the replay check: validate the amount
against the remaining balance (the new record created by `get_or_create`
persists even on this error path, since the transaction commits on a plain
return), then mutate the payment, finalise the record COMPLETED and publish. -/
def refundApply (st : ServiceState) (pid : Nat) (p : Payment) (req : RefundRequest)
    (r : IdemRecord) (brokerOk : Bool) : ServiceState × RefundResult :=
  let ra := refundAmountOf p req
  let remaining := p.amount - p.refunded_amount
  if remaining < ra then (st, RefundResult.invalidAmount remaining)
  else
    let p1 := refundUpdated p req
    let stA := savePayment st p1
    let stB := setKey stA r.key { r with status := IdemStatus.COMPLETED }
    let msg := refundEventMsg pid p1 ra (req.reason.getD ("Customer request"))
    ((publish_payment_event brokerOk msg stB).2, RefundResult.refunded ra p1)

/-- `refund_payment` from `src/payments/views.py`.  The payment must exist
and be strictly SUCCESS; then `get_or_create` on the refund-scoped key, an
existing COMPLETED record replays the payment's current state, and any other
existing record (including PROCESSING) falls through to `refundApply`. -/
def refund_payment (st : ServiceState) (pid : Nat) (req : RefundRequest)
    (brokerOk : Bool) : ServiceState × RefundResult :=
  if refundValid req = false then (st, RefundResult.validationError) else
  match findPayment st pid with
  | none => (st, RefundResult.notFound)
  | some p =>
      if p.status = PaymentStatus.SUCCESS then
        match findKey st (refundScopedKey pid req.idempotency_key) with
        | some r =>
            if r.status = IdemStatus.COMPLETED then (st, RefundResult.replayed p)
            else refundApply st pid p req r brokerOk
        | none =>
            let r0 : IdemRecord :=
              { key := refundScopedKey pid req.idempotency_key,
                payment := some pid, status := IdemStatus.PROCESSING }
            refundApply { st with idemKeys := st.idemKeys ++ [r0] } pid p req r0 brokerOk
      else (st, RefundResult.invalidState)

/-- The payment row as mutated by the cancellation handler: refund the full
remaining amount and set status REFUNDED. -/
def fullRefund (p : Payment) : Payment :=
  { p with refunded_amount := p.refunded_amount + (p.amount - p.refunded_amount),
           status := PaymentStatus.REFUNDED }

/-- The `payment.refunded` message built by `handle_order_cancellation`;
note it carries no `total_refunded` field. -/
def cancellationEvent (p : Payment) : EventMsg :=
  { event_type := "payment.refunded",
    data := [("payment_id", JVal.num p.payment_id), ("order_id", JVal.num p.order_id),
             ("refund_amount", JVal.num (p.amount - p.refunded_amount)),
             ("reason", JVal.str ("Order cancellation"))] }

/-- One iteration of the loop in `handle_order_cancellation`: payments not
fully refunded get refunded in full, saved and announced. -/
def cancelStep (brokerOk : Bool) (st : ServiceState) (p : Payment) : ServiceState :=
  if p.refunded_amount < p.amount then
    (publish_payment_event brokerOk (cancellationEvent p) (savePayment st (fullRefund p))).2
  else st

/-- `handle_order_cancellation` from `src/payments/events.py`: select the
payments of the order with status strictly SUCCESS and refund each in full. -/
def handle_order_cancellation (st : ServiceState) (order_id : Option Int)
    (brokerOk : Bool) : ServiceState :=
  match order_id with
  | none => st
  | some oid =>
      (st.payments.filter
        (fun q => decide (q.order_id = oid) && decide (q.status = PaymentStatus.SUCCESS))).foldl
        (cancelStep brokerOk) st

/-- The idempotency record left behind by a gateway-successful charge. -/
def completedChargeKey (st : ServiceState) (req : ChargeRequest) : IdemRecord :=
  { key := req.idempotency_key, payment := some st.nextPaymentId,
    status := IdemStatus.COMPLETED }

/-- An idempotency record as finalised by a gateway-successful charge. -/
def chargeCompletedRecord (st : ServiceState) (r : IdemRecord) : IdemRecord :=
  { r with payment := some st.nextPaymentId, status := IdemStatus.COMPLETED }

/-- The net effect of one loop iteration on the row it targets: a full
refund when not yet fully refunded, untouched otherwise. -/
def fullRefundIf (q : Payment) : Payment :=
  if q.refunded_amount < q.amount then fullRefund q else q

/-- The net effect of `handle_order_cancellation` on a single row. -/
def cancelUpd (oid : Int) (q : Payment) : Payment :=
  if q.order_id = oid ∧ q.status = PaymentStatus.SUCCESS then fullRefundIf q else q

/-- One operation of the service as invoked from outside. -/
inductive SvcOp
  | chargeOp (req : ChargeRequest) (gw : GatewayOutcome) (brokerOk : Bool)
  | refundOp (pid : Nat) (req : RefundRequest) (brokerOk : Bool)
  | cancelOp (order_id : Option Int) (brokerOk : Bool)

/-- The state transition of one operation. -/
def stepOp (st : ServiceState) : SvcOp → ServiceState
  | SvcOp.chargeOp req gw b => (charge_payment st req gw b).1
  | SvcOp.refundOp pid req b => (refund_payment st pid req b).1
  | SvcOp.cancelOp oid b => handle_order_cancellation st oid b

/-- The state after a sequence of operations from the empty store. -/
def runOps (ops : List SvcOp) : ServiceState := ops.foldl stepOp initialState

/-- The per-payment invariant of the spec data model: refund accounting
stays within bounds and the status encodes the refund level. -/
def paymentInvariant (p : Payment) : Prop :=
  0 < p.amount ∧ 0 ≤ p.refunded_amount ∧ p.refunded_amount ≤ p.amount ∧
  (p.status = PaymentStatus.REFUNDED ↔ p.refunded_amount = p.amount) ∧
  (p.status = PaymentStatus.PARTIAL_REFUND ↔
    (0 < p.refunded_amount ∧ p.refunded_amount < p.amount))

instance (p : Payment) : Decidable (paymentInvariant p) := by
  unfold paymentInvariant; infer_instance

/-- The state invariant: every payment row satisfies the accounting
invariant, the AutoField counter is ahead of every existing id, and ids are
strictly increasing along the table (hence unique). -/
def stateInv (st : ServiceState) : Prop :=
  (∀ p ∈ st.payments, paymentInvariant p) ∧
  (∀ p ∈ st.payments, p.payment_id < st.nextPaymentId) ∧
  st.payments.Pairwise (fun x y => x.payment_id < y.payment_id)

instance (st : ServiceState) : Decidable (stateInv st) := by
  unfold stateInv; infer_instance

/-- Does an event's data dict carry the given field? -/
def hasField (e : EventMsg) (k : String) : Bool :=
  e.data.any (fun kv => kv.1 == k)

/-! Concrete scenarios used by witnesses and counterexamples. -/

def c1Req : ChargeRequest :=
  { order_id := 3, amount := 2500, method := "UPI", idempotency_key := "c1-duplicate-key" }

def c1State : ServiceState :=
  runOps [SvcOp.chargeOp c1Req (GatewayOutcome.declined ("Insufficient funds")) true,
          SvcOp.chargeOp c1Req GatewayOutcome.ok true]

def c2Ops : List SvcOp :=
  [SvcOp.chargeOp
    { order_id := 7, amount := 10000, method := "CARD", idempotency_key := "c2-charge-key-01" }
    GatewayOutcome.ok true]

def c2More : List SvcOp :=
  [SvcOp.refundOp 1 { amount := some 3000, reason := none, idempotency_key := "c2-refund" } true]

def c2PayA : Payment :=
  { payment_id := 1, order_id := 7, amount := 10000, method := "CARD",
    status := PaymentStatus.SUCCESS, reference := "ECI-1",
    refunded_amount := 0, failure_reason := none }

def c2PayB : Payment :=
  { payment_id := 1, order_id := 7, amount := 10000, method := "CARD",
    status := PaymentStatus.PARTIAL_REFUND, reference := "ECI-1",
    refunded_amount := 3000, failure_reason := none }

def c3State : ServiceState :=
  runOps [SvcOp.chargeOp
            { order_id := 5, amount := 10000, method := "CARD",
              idempotency_key := "c3-charge-key-01" } GatewayOutcome.ok true,
          SvcOp.refundOp 1
            { amount := some 3000, reason := none, idempotency_key := "c3-refund-a" } true]

def c3SecondRefund : RefundRequest :=
  { amount := some 7000, reason := none, idempotency_key := "c3-refund-b" }

def c3Pay : Payment :=
  { payment_id := 1, order_id := 5, amount := 10000, method := "CARD",
    status := PaymentStatus.PARTIAL_REFUND, reference := "ECI-1",
    refunded_amount := 3000, failure_reason := none }

def c5FailedRecord : IdemRecord :=
  { key := "c5-failed-key-01", payment := some 1, status := IdemStatus.FAILED }

def c4State : ServiceState :=
  runOps [SvcOp.chargeOp
            { order_id := 6, amount := 10000, method := "CARD",
              idempotency_key := "c4-charge-key-01" } GatewayOutcome.ok true]

/-- A refund request body with no reason. -/
def mkRefundReq (a : Option Int) (k : String) : RefundRequest :=
  { amount := a, reason := none, idempotency_key := k }

def c4Pay : Payment :=
  { payment_id := 1, order_id := 6, amount := 10000, method := "CARD",
    status := PaymentStatus.SUCCESS, reference := "ECI-1",
    refunded_amount := 0, failure_reason := none }

def c7Pay : Payment :=
  { payment_id := 1, order_id := 9, amount := 5000, method := "UPI",
    status := PaymentStatus.SUCCESS, reference := "ECI-1",
    refunded_amount := 0, failure_reason := none }

def c5Req : ChargeRequest :=
  { order_id := 4, amount := 1500, method := "CARD", idempotency_key := "c5-failed-key-01" }

def c5State : ServiceState :=
  runOps [SvcOp.chargeOp c5Req (GatewayOutcome.declined ("Card declined")) true]

def c6State : ServiceState :=
  runOps [SvcOp.chargeOp
            { order_id := 11, amount := 5000, method := "CARD",
              idempotency_key := "c6-charge-key-01" } GatewayOutcome.ok true]

def c7State : ServiceState :=
  runOps [SvcOp.chargeOp
            { order_id := 9, amount := 5000, method := "UPI",
              idempotency_key := "c7-charge-key-01" } GatewayOutcome.ok true]

def c9Refund : RefundRequest :=
  { amount := none, reason := none, idempotency_key := "c9-refund" }

def c9State : ServiceState :=
  runOps [SvcOp.chargeOp
            { order_id := 2, amount := 4000, method := "COD",
              idempotency_key := "c9-charge-key-01" } GatewayOutcome.ok true,
          SvcOp.refundOp 1 c9Refund true]

def c9Pay : Payment :=
  { payment_id := 1, order_id := 2, amount := 4000, method := "COD",
    status := PaymentStatus.REFUNDED, reference := "ECI-1",
    refunded_amount := 4000, failure_reason := none }

def c9Record : IdemRecord :=
  { key := "refund_1_c9-refund", payment := some 1, status := IdemStatus.COMPLETED }

def c10Pay : Payment :=
  { payment_id := 1, order_id := 8, amount := 6000, method := "CARD",
    status := PaymentStatus.SUCCESS, reference := "ECI-1",
    refunded_amount := 0, failure_reason := none }

def c10Refund : RefundRequest :=
  { amount := some 2000, reason := none, idempotency_key := "c10-retry" }

def c10Record : IdemRecord :=
  { key := refundScopedKey 1 ("c10-retry"), payment := some 1,
    status := IdemStatus.PROCESSING }

/-- A state caught mid-flight: the refund-scoped idempotency record exists
with status PROCESSING while the payment is still SUCCESS. -/
def c10State : ServiceState :=
  { payments := [c10Pay], idemKeys := [c10Record],
    nextPaymentId := 2, gatewayCalls := 1, events := [], delivered := [] }

def c10ChargeReq : ChargeRequest :=
  { order_id := 8, amount := 6000, method := "CARD", idempotency_key := "c10-charge-key-1" }

def c10ChargeRecord : IdemRecord :=
  { key := "c10-charge-key-1", payment := none, status := IdemStatus.PROCESSING }

def c10ChargeState : ServiceState :=
  { payments := [], idemKeys := [c10ChargeRecord],
    nextPaymentId := 1, gatewayCalls := 0, events := [], delivered := [] }

/-! Projection lemmas for the state helpers. -/

@[simp] theorem savePayment_payments (st : ServiceState) (p : Payment) :
    (savePayment st p).payments =
      st.payments.map (fun q => if q.payment_id == p.payment_id then p else q) := rfl

@[simp] theorem savePayment_idemKeys (st : ServiceState) (p : Payment) :
    (savePayment st p).idemKeys = st.idemKeys := rfl

@[simp] theorem savePayment_nextPaymentId (st : ServiceState) (p : Payment) :
    (savePayment st p).nextPaymentId = st.nextPaymentId := rfl

@[simp] theorem savePayment_gatewayCalls (st : ServiceState) (p : Payment) :
    (savePayment st p).gatewayCalls = st.gatewayCalls := rfl

@[simp] theorem savePayment_events (st : ServiceState) (p : Payment) :
    (savePayment st p).events = st.events := rfl

@[simp] theorem setKey_payments (st : ServiceState) (k : String) (r : IdemRecord) :
    (setKey st k r).payments = st.payments := rfl

@[simp] theorem setKey_idemKeys (st : ServiceState) (k : String) (r : IdemRecord) :
    (setKey st k r).idemKeys = st.idemKeys.map (fun q => if q.key == k then r else q) := rfl

@[simp] theorem setKey_nextPaymentId (st : ServiceState) (k : String) (r : IdemRecord) :
    (setKey st k r).nextPaymentId = st.nextPaymentId := rfl

@[simp] theorem setKey_gatewayCalls (st : ServiceState) (k : String) (r : IdemRecord) :
    (setKey st k r).gatewayCalls = st.gatewayCalls := rfl

@[simp] theorem setKey_events (st : ServiceState) (k : String) (r : IdemRecord) :
    (setKey st k r).events = st.events := rfl

@[simp] theorem publish_payments (b : Bool) (m : EventMsg) (st : ServiceState) :
    ((publish_payment_event b m st).2).payments = st.payments := by
  cases b <;> rfl

@[simp] theorem publish_idemKeys (b : Bool) (m : EventMsg) (st : ServiceState) :
    ((publish_payment_event b m st).2).idemKeys = st.idemKeys := by
  cases b <;> rfl

@[simp] theorem publish_nextPaymentId (b : Bool) (m : EventMsg) (st : ServiceState) :
    ((publish_payment_event b m st).2).nextPaymentId = st.nextPaymentId := by
  cases b <;> rfl

@[simp] theorem publish_gatewayCalls (b : Bool) (m : EventMsg) (st : ServiceState) :
    ((publish_payment_event b m st).2).gatewayCalls = st.gatewayCalls := by
  cases b <;> rfl

@[simp] theorem publish_events (b : Bool) (m : EventMsg) (st : ServiceState) :
    ((publish_payment_event b m st).2).events = st.events ++ [m] := by
  cases b <;> rfl

@[simp] theorem publish_fst (b : Bool) (m : EventMsg) (st : ServiceState) :
    (publish_payment_event b m st).1 = b := by
  cases b <;> rfl

/-! List lemmas about `find?` and pointwise row updates. -/

theorem find_append_some {α : Type} (f : α → Bool) (l₂ : List α) :
    ∀ (l₁ : List α) (a : α), l₁.find? f = some a → (l₁ ++ l₂).find? f = some a := by
  intro l₁
  induction l₁ with
  | nil => intro a h; simp [List.find?] at h
  | cons x xs ih =>
    intro a h
    rw [List.cons_append]
    by_cases hx : f x
    · rw [List.find?_cons_of_pos _ hx] at h ⊢; exact h
    · rw [List.find?_cons_of_neg _ hx] at h ⊢; exact ih a h

theorem find_append_none {α : Type} (f : α → Bool) (l₂ : List α) :
    ∀ (l₁ : List α), l₁.find? f = none → (l₁ ++ l₂).find? f = l₂.find? f := by
  intro l₁
  induction l₁ with
  | nil => intro _; simp
  | cons x xs ih =>
    intro h
    by_cases hx : f x
    · rw [List.find?_cons_of_pos _ hx] at h; exact absurd h (by simp)
    · rw [List.find?_cons_of_neg _ hx] at h
      rw [List.cons_append, List.find?_cons_of_neg _ hx]
      exact ih h

theorem find_map_upd {α : Type} (f : α → Bool) (r : α) (hr : f r = true) :
    ∀ (l : List α) (a : α), l.find? f = some a →
      (l.map (fun q => if f q then r else q)).find? f = some r := by
  intro l
  induction l with
  | nil => intro a h; simp [List.find?] at h
  | cons x xs ih =>
    intro a h
    rw [List.map_cons]
    by_cases hx : f x
    · rw [if_pos hx, List.find?_cons_of_pos _ hr]
    · rw [List.find?_cons_of_neg _ hx] at h
      rw [if_neg hx, List.find?_cons_of_neg _ hx]
      exact ih a h

theorem find_map_upd_ne {α : Type} (f g : α → Bool) (r : α)
    (h : ∀ q, f q = true → g q = false) (hr : g r = false) :
    ∀ (l : List α),
      (l.map (fun q => if f q then r else q)).find? g = l.find? g := by
  intro l
  induction l with
  | nil => rfl
  | cons x xs ih =>
    rw [List.map_cons]
    by_cases hx : f x
    · rw [if_pos hx, List.find?_cons_of_neg _ (by simp [hr]),
          List.find?_cons_of_neg _ (by simp [h x hx])]
      exact ih
    · rw [if_neg hx]
      by_cases hg : g x
      · rw [List.find?_cons_of_pos _ hg, List.find?_cons_of_pos _ hg]
      · rw [List.find?_cons_of_neg _ hg, List.find?_cons_of_neg _ hg]
        exact ih

theorem map_upd_id {α : Type} (f : α → Bool) (r : α) :
    ∀ (l : List α), (∀ q ∈ l, f q = false) →
      l.map (fun q => if f q then r else q) = l := by
  intro l
  induction l with
  | nil => intro _; rfl
  | cons x xs ih =>
    intro h
    rw [List.map_cons, if_neg (by simp [h x (List.mem_cons_self x xs)]),
        ih (fun q hq => h q (List.mem_cons_of_mem x hq))]

theorem save_append_fresh (l : List Payment) (p0 pf : Payment)
    (h : ∀ q ∈ l, q.payment_id ≠ p0.payment_id) :
    (l ++ [p0]).map (fun q => if q.payment_id == p0.payment_id then pf else q)
      = l ++ [pf] := by
  induction l with
  | nil => simp
  | cons x xs ih =>
    rw [List.cons_append, List.map_cons,
        if_neg (by simp [h x (List.mem_cons_self x xs)]),
        ih (fun q hq => h q (List.mem_cons_of_mem x hq))]
    rfl

theorem find_map_pres (g : Payment → Payment)
    (hg : ∀ q, (g q).payment_id = q.payment_id) (pid : Nat) :
    ∀ (l : List Payment),
      (l.map g).find? (fun q => q.payment_id == pid)
        = (l.find? (fun q => q.payment_id == pid)).map g := by
  intro l
  induction l with
  | nil => rfl
  | cons x xs ih =>
    rw [List.map_cons]
    have hgid : ((g x).payment_id == pid) = (x.payment_id == pid) := by rw [hg]
    cases hx : (x.payment_id == pid) <;>
      simp [List.find?_cons, hgid, hx, ih]

theorem pairwise_id_unique :
    ∀ (l : List Payment), l.Pairwise (fun x y => x.payment_id < y.payment_id) →
      ∀ q ∈ l, ∀ t ∈ l, q.payment_id = t.payment_id → q = t := by
  intro l
  induction l with
  | nil => intro _ q hq; exact absurd hq (by simp)
  | cons x xs ih =>
    intro hpw q hq t ht heq
    rw [List.pairwise_cons] at hpw
    rcases List.mem_cons.mp hq with rfl | hq'
    · rcases List.mem_cons.mp ht with rfl | ht'
      · rfl
      · exact absurd heq (Nat.ne_of_lt (hpw.1 t ht'))
    · rcases List.mem_cons.mp ht with rfl | ht'
      · exact absurd heq.symm (Nat.ne_of_lt (hpw.1 q hq'))
      · exact ih hpw.2 q hq' t ht' heq

theorem chargeProcess_nextPaymentId (st : ServiceState) (req : ChargeRequest)
    (r : IdemRecord) (gw : GatewayOutcome) (b : Bool) :
    (chargeProcess st req r gw b).1.nextPaymentId = st.nextPaymentId + 1 := by
  cases gw <;> cases b <;> rfl

theorem chargeProcess_gatewayCalls (st : ServiceState) (req : ChargeRequest)
    (r : IdemRecord) (gw : GatewayOutcome) (b : Bool) :
    (chargeProcess st req r gw b).1.gatewayCalls = st.gatewayCalls + 1 := by
  cases gw <;> cases b <;> rfl

theorem chargeProcess_payments (st : ServiceState) (req : ChargeRequest)
    (r : IdemRecord) (gw : GatewayOutcome) (b : Bool)
    (hfresh : ∀ q ∈ st.payments, q.payment_id ≠ st.nextPaymentId) :
    ∃ pf : Payment,
      (chargeProcess st req r gw b).1.payments = st.payments ++ [pf] ∧
      (chargeProcess st req r gw b).2 ≠ ChargeResult.conflict ∧
      pf.payment_id = st.nextPaymentId ∧ pf.order_id = req.order_id ∧
      pf.amount = req.amount ∧ pf.refunded_amount = 0 ∧
      (pf.status = PaymentStatus.SUCCESS ∨ pf.status = PaymentStatus.FAILED) := by
  cases gw with
  | ok =>
      refine ⟨chargeSuccessPayment st req,
        ?_, by simp [chargeProcess], rfl, rfl, rfl, rfl, Or.inl rfl⟩
      simp only [chargeProcess, publish_payments, setKey_payments, savePayment_payments]
      have hfresh' : ∀ q ∈ st.payments, q.payment_id ≠ (chargePending st req).payment_id :=
        hfresh
      exact save_append_fresh st.payments (chargePending st req)
        (chargeSuccessPayment st req) hfresh'
  | declined reason =>
      refine ⟨chargeFailedPayment st req reason,
        ?_, by simp [chargeProcess], rfl, rfl, rfl, rfl, Or.inr rfl⟩
      simp only [chargeProcess, publish_payments, setKey_payments, savePayment_payments]
      have hfresh' : ∀ q ∈ st.payments, q.payment_id ≠ (chargePending st req).payment_id :=
        hfresh
      exact save_append_fresh st.payments (chargePending st req)
        (chargeFailedPayment st req reason) hfresh'

theorem charge_cases (st : ServiceState) (req : ChargeRequest) (gw : GatewayOutcome)
    (b : Bool) (hfresh : ∀ q ∈ st.payments, q.payment_id ≠ st.nextPaymentId) :
    ((charge_payment st req gw b).1 = st) ∨
    (chargeValid req = true ∧ ∃ pf,
      (charge_payment st req gw b).1.payments = st.payments ++ [pf] ∧
      (charge_payment st req gw b).1.nextPaymentId = st.nextPaymentId + 1 ∧
      pf.payment_id = st.nextPaymentId ∧ pf.amount = req.amount ∧
      pf.refunded_amount = 0 ∧
      (pf.status = PaymentStatus.SUCCESS ∨ pf.status = PaymentStatus.FAILED)) := by
  cases hv : chargeValid req with
  | false => left; simp [charge_payment, hv]
  | true =>
    cases hk : findKey st req.idempotency_key with
    | none =>
      right
      refine ⟨rfl, ?_⟩
      obtain ⟨pf, h1, hc, h3, h4, h5, h6, h7⟩ :=
        chargeProcess_payments
          { st with idemKeys := st.idemKeys ++
              [{ key := req.idempotency_key, payment := none, status := IdemStatus.PROCESSING }] }
          req
          { key := req.idempotency_key, payment := none, status := IdemStatus.PROCESSING }
          gw b hfresh
      refine ⟨pf, ?_, ?_, h3, h5, h6, h7⟩
      · simp [charge_payment, hv, hk]
        exact h1
      · simp [charge_payment, hv, hk, chargeProcess_nextPaymentId]
    | some r =>
      cases hs : r.status with
      | COMPLETED =>
        cases hp : r.payment with
        | some pid =>
          cases hfp : findPayment st pid with
          | some p => left; simp [charge_payment, hv, hk, hs, hp, hfp]
          | none => left; simp [charge_payment, hv, hk, hs, hp, hfp]
        | none =>
          right
          refine ⟨rfl, ?_⟩
          obtain ⟨pf, h1, hc, h3, h4, h5, h6, h7⟩ :=
            chargeProcess_payments st req r gw b hfresh
          refine ⟨pf, ?_, ?_, h3, h5, h6, h7⟩
          · simp [charge_payment, hv, hk, hs, hp]
            exact h1
          · simp [charge_payment, hv, hk, hs, hp, chargeProcess_nextPaymentId]
      | PROCESSING => left; simp [charge_payment, hv, hk, hs]
      | FAILED =>
        right
        refine ⟨rfl, ?_⟩
        obtain ⟨pf, h1, hc, h3, h4, h5, h6, h7⟩ :=
          chargeProcess_payments st req r gw b hfresh
        refine ⟨pf, ?_, ?_, h3, h5, h6, h7⟩
        · simp [charge_payment, hv, hk, hs]
          exact h1
        · simp [charge_payment, hv, hk, hs, chargeProcess_nextPaymentId]

theorem refundUpdated_payment_id (p : Payment) (req : RefundRequest) :
    (refundUpdated p req).payment_id = p.payment_id := rfl

theorem refundUpdated_refunded_amount (p : Payment) (req : RefundRequest) :
    (refundUpdated p req).refunded_amount = p.refunded_amount + refundAmountOf p req := rfl

theorem refundApply_cases (st : ServiceState) (pid : Nat) (p : Payment)
    (req : RefundRequest) (r : IdemRecord) (b : Bool) :
    (refundApply st pid p req r b
        = (st, RefundResult.invalidAmount (p.amount - p.refunded_amount)) ∧
      p.amount - p.refunded_amount < refundAmountOf p req) ∨
    (refundAmountOf p req ≤ p.amount - p.refunded_amount ∧
      (refundApply st pid p req r b).1.payments
        = st.payments.map
            (fun q => if q.payment_id == p.payment_id then refundUpdated p req else q) ∧
      (refundApply st pid p req r b).1.nextPaymentId = st.nextPaymentId ∧
      (refundApply st pid p req r b).1.gatewayCalls = st.gatewayCalls ∧
      (refundApply st pid p req r b).2
        = RefundResult.refunded (refundAmountOf p req) (refundUpdated p req)) := by
  by_cases hlt : p.amount - p.refunded_amount < refundAmountOf p req
  · left
    exact ⟨by simp [refundApply, hlt], hlt⟩
  · right
    refine ⟨le_of_not_lt hlt, ?_, ?_, ?_, ?_⟩ <;>
      simp [refundApply, hlt, refundUpdated]

theorem refund_cases (st : ServiceState) (pid : Nat) (req : RefundRequest) (b : Bool) :
    ((refund_payment st pid req b).1.payments = st.payments ∧
     (refund_payment st pid req b).1.nextPaymentId = st.nextPaymentId ∧
     (refund_payment st pid req b).1.gatewayCalls = st.gatewayCalls) ∨
    (refundValid req = true ∧ ∃ p, findPayment st pid = some p ∧
      p.status = PaymentStatus.SUCCESS ∧
      refundAmountOf p req ≤ p.amount - p.refunded_amount ∧
      (refund_payment st pid req b).1.payments
        = st.payments.map
            (fun q => if q.payment_id == p.payment_id then refundUpdated p req else q) ∧
      (refund_payment st pid req b).1.nextPaymentId = st.nextPaymentId ∧
      (refund_payment st pid req b).1.gatewayCalls = st.gatewayCalls) := by
  cases hv : refundValid req with
  | false => left; simp [refund_payment, hv]
  | true =>
    cases hfp : findPayment st pid with
    | none => left; simp [refund_payment, hv, hfp]
    | some p =>
      by_cases hs : p.status = PaymentStatus.SUCCESS
      · cases hk : findKey st (refundScopedKey pid req.idempotency_key) with
        | some r =>
          by_cases hrs : r.status = IdemStatus.COMPLETED
          · left; simp [refund_payment, hv, hfp, hs, hk, hrs]
          · rcases refundApply_cases st pid p req r b with ⟨heq, _⟩ | ⟨hle, h1, h2, h3, _⟩
            · left
              simp [refund_payment, hv, hfp, hs, hk, hrs, heq]
            · right
              refine ⟨rfl, p, rfl, hs, hle, ?_, ?_, ?_⟩ <;>
                simp [refund_payment, hv, hfp, hs, hk, hrs, h1, h2, h3]
        | none =>
          rcases refundApply_cases
              { st with idemKeys := st.idemKeys ++
                  [{ key := refundScopedKey pid req.idempotency_key,
                     payment := some pid, status := IdemStatus.PROCESSING }] }
              pid p req
              { key := refundScopedKey pid req.idempotency_key,
                payment := some pid, status := IdemStatus.PROCESSING } b
            with ⟨heq, _⟩ | ⟨hle, h1, h2, h3, _⟩
          · left
            simp [refund_payment, hv, hfp, hs, hk, heq]
          · right
            refine ⟨rfl, p, rfl, hs, hle, ?_, ?_, ?_⟩ <;>
              simp [refund_payment, hv, hfp, hs, hk] <;>
              simp [h1, h2, h3]
      · left; simp [refund_payment, hv, hfp, hs]

theorem map_congr_mem {α β : Type} (f g : α → β) :
    ∀ (l : List α), (∀ a ∈ l, f a = g a) → l.map f = l.map g := by
  intro l
  induction l with
  | nil => intro _; rfl
  | cons x xs ih =>
    intro h
    rw [List.map_cons, List.map_cons, h x (List.mem_cons_self x xs),
        ih (fun a ha => h a (List.mem_cons_of_mem x ha))]

theorem fullRefund_payment_id (q : Payment) : (fullRefund q).payment_id = q.payment_id := rfl

theorem fullRefundIf_payment_id (q : Payment) :
    (fullRefundIf q).payment_id = q.payment_id := by
  unfold fullRefundIf; split <;> rfl

theorem cancelStep_payments (b : Bool) (st : ServiceState) (t : Payment)
    (hin : ∀ q ∈ st.payments, q.payment_id = t.payment_id → q = t) :
    (cancelStep b st t).payments
      = st.payments.map
          (fun q => if q.payment_id == t.payment_id then fullRefundIf q else q) := by
  by_cases hg : t.refunded_amount < t.amount
  · simp only [cancelStep, if_pos hg, publish_payments, savePayment_payments,
               fullRefund_payment_id]
    refine map_congr_mem _ _ _ (fun q hq => ?_)
    by_cases hid : (q.payment_id == t.payment_id) = true
    · rw [if_pos hid, if_pos hid, hin q hq (beq_iff_eq.mp hid)]
      unfold fullRefundIf
      rw [if_pos hg]
    · rw [if_neg hid, if_neg hid]
  · simp only [cancelStep, if_neg hg]
    have h1 : st.payments.map
        (fun q => if q.payment_id == t.payment_id then fullRefundIf q else q)
        = st.payments.map id :=
      map_congr_mem _ _ _ (fun q hq => by
        by_cases hid : (q.payment_id == t.payment_id) = true
        · rw [if_pos hid, hin q hq (beq_iff_eq.mp hid)]
          unfold fullRefundIf
          rw [if_neg hg]
          rfl
        · rw [if_neg hid]
          rfl)
    exact (h1.trans (List.map_id _)).symm

theorem cancelStep_events (b : Bool) (st : ServiceState) (t : Payment) :
    (cancelStep b st t).events
      = st.events ++
          (if t.refunded_amount < t.amount then [cancellationEvent t] else []) := by
  by_cases hg : t.refunded_amount < t.amount
  · simp [cancelStep, hg]
  · simp [cancelStep, hg]

theorem cancelStep_idemKeys (b : Bool) (st : ServiceState) (t : Payment) :
    (cancelStep b st t).idemKeys = st.idemKeys := by
  by_cases hg : t.refunded_amount < t.amount <;> simp [cancelStep, hg]

theorem cancelStep_nextPaymentId (b : Bool) (st : ServiceState) (t : Payment) :
    (cancelStep b st t).nextPaymentId = st.nextPaymentId := by
  by_cases hg : t.refunded_amount < t.amount <;> simp [cancelStep, hg]

theorem cancelStep_gatewayCalls (b : Bool) (st : ServiceState) (t : Payment) :
    (cancelStep b st t).gatewayCalls = st.gatewayCalls := by
  by_cases hg : t.refunded_amount < t.amount <;> simp [cancelStep, hg]

theorem cancelFold_chars (b : Bool) :
    ∀ (ts : List Payment) (st : ServiceState),
      (∀ t ∈ ts, ∀ q ∈ st.payments, q.payment_id = t.payment_id → q = t) →
      ts.Pairwise (fun x y => x.payment_id ≠ y.payment_id) →
      (ts.foldl (cancelStep b) st).payments
          = st.payments.map
              (fun q => if ts.any (fun t => t.payment_id == q.payment_id)
                        then fullRefundIf q else q) ∧
      (ts.foldl (cancelStep b) st).events
          = st.events ++
              (ts.filter (fun t => decide (t.refunded_amount < t.amount))).map
                cancellationEvent ∧
      (ts.foldl (cancelStep b) st).idemKeys = st.idemKeys ∧
      (ts.foldl (cancelStep b) st).nextPaymentId = st.nextPaymentId ∧
      (ts.foldl (cancelStep b) st).gatewayCalls = st.gatewayCalls := by
  intro ts
  induction ts with
  | nil =>
    intro st _ _
    refine ⟨?_, by simp, rfl, rfl, rfl⟩
    simp
  | cons t ts ih =>
    intro st hin hpw
    rw [List.pairwise_cons] at hpw
    have hstep := cancelStep_payments b st t
      (fun q hq => hin t (List.mem_cons_self t ts) q hq)
    have hin1 : ∀ t' ∈ ts, ∀ q ∈ (cancelStep b st t).payments,
        q.payment_id = t'.payment_id → q = t' := by
      intro t' ht' q hq heq
      rw [hstep] at hq
      obtain ⟨q0, hq0, rfl⟩ := List.mem_map.mp hq
      by_cases hid : (q0.payment_id == t.payment_id) = true
      · rw [if_pos hid] at heq ⊢
        rw [fullRefundIf_payment_id] at heq
        have ht't : t'.payment_id = t.payment_id := heq.symm.trans (beq_iff_eq.mp hid)
        exact absurd ht't.symm (hpw.1 t' ht')
      · rw [if_neg hid] at heq ⊢
        exact hin t' (List.mem_cons_of_mem t ht') q0 hq0 heq
    obtain ⟨ihP, ihE, ihK, ihN, ihG⟩ := ih (cancelStep b st t) hin1 hpw.2
    rw [List.foldl_cons]
    refine ⟨?_, ?_, ?_, ?_, ?_⟩
    · rw [ihP, hstep, List.map_map]
      refine map_congr_mem _ _ _ (fun q hq => ?_)
      by_cases hid : (q.payment_id == t.payment_id) = true
      · have hqt : q = t := hin t (List.mem_cons_self t ts) q hq (beq_iff_eq.mp hid)
        have hany : ts.any (fun t' => t'.payment_id == (fullRefundIf q).payment_id) = false := by
          rw [List.any_eq_false]
          intro t' ht'
          rw [fullRefundIf_payment_id, beq_iff_eq.mp hid]
          exact fun h => hpw.1 t' ht' (beq_iff_eq.mp h).symm
        have hanyc : (t :: ts).any (fun t' => t'.payment_id == q.payment_id) = true := by
          rw [List.any_cons]
          have hqid : (t.payment_id == q.payment_id) = true :=
            beq_iff_eq.mpr (beq_iff_eq.mp hid).symm
          rw [hqid, Bool.true_or]
        simp only [Function.comp, if_pos hid, hany, hanyc]
        simp
      · have hne : q.payment_id ≠ t.payment_id := fun h => hid (beq_iff_eq.mpr h)
        have hhead : (t.payment_id == q.payment_id) = false :=
          beq_eq_false_iff_ne.mpr (Ne.symm hne)
        simp only [Function.comp]
        rw [if_neg hid]
        simp only [List.any_cons, hhead, Bool.false_or]
    · rw [ihE, cancelStep_events, List.filter_cons]
      by_cases hg : t.refunded_amount < t.amount
      · rw [if_pos hg, if_pos (by simpa using hg)]
        simp [List.append_assoc]
      · rw [if_neg hg, if_neg (by simpa using hg)]
        simp
    · rw [ihK, cancelStep_idemKeys]
    · rw [ihN, cancelStep_nextPaymentId]
    · rw [ihG, cancelStep_gatewayCalls]

theorem handle_cancel_chars (st : ServiceState) (oid : Int) (b : Bool)
    (hpw : st.payments.Pairwise (fun x y => x.payment_id < y.payment_id)) :
    (handle_order_cancellation st (some oid) b).payments
        = st.payments.map (cancelUpd oid) ∧
    (handle_order_cancellation st (some oid) b).events
        = st.events ++
            ((st.payments.filter (fun q => decide (q.order_id = oid) &&
                decide (q.status = PaymentStatus.SUCCESS))).filter
              (fun t => decide (t.refunded_amount < t.amount))).map cancellationEvent ∧
    (handle_order_cancellation st (some oid) b).idemKeys = st.idemKeys ∧
    (handle_order_cancellation st (some oid) b).nextPaymentId = st.nextPaymentId ∧
    (handle_order_cancellation st (some oid) b).gatewayCalls = st.gatewayCalls := by
  have huniq := pairwise_id_unique st.payments hpw
  have hin : ∀ t ∈ st.payments.filter (fun q => decide (q.order_id = oid) &&
      decide (q.status = PaymentStatus.SUCCESS)), ∀ q ∈ st.payments,
      q.payment_id = t.payment_id → q = t := by
    intro t ht q hq heq
    exact huniq q hq t (List.mem_of_mem_filter ht) heq
  have hpw' : (st.payments.filter (fun q => decide (q.order_id = oid) &&
      decide (q.status = PaymentStatus.SUCCESS))).Pairwise
      (fun x y => x.payment_id ≠ y.payment_id) :=
    List.Pairwise.filter _ (hpw.imp (fun h => Nat.ne_of_lt h))
  obtain ⟨hP, hE, hK, hN, hG⟩ := cancelFold_chars b _ st hin hpw'
  simp only [handle_order_cancellation]
  refine ⟨?_, hE, hK, hN, hG⟩
  rw [hP]
  refine map_congr_mem _ _ _ (fun q hq => ?_)
  simp only [cancelUpd]
  by_cases hc : q.order_id = oid ∧ q.status = PaymentStatus.SUCCESS
  · have hqmem : q ∈ st.payments.filter (fun q => decide (q.order_id = oid) &&
        decide (q.status = PaymentStatus.SUCCESS)) :=
      List.mem_filter.mpr ⟨hq, by simp [hc.1, hc.2]⟩
    have hany : (st.payments.filter (fun q => decide (q.order_id = oid) &&
        decide (q.status = PaymentStatus.SUCCESS))).any
          (fun t => t.payment_id == q.payment_id) = true :=
      List.any_eq_true.mpr ⟨q, hqmem, by simp⟩
    rw [hany, if_pos rfl, if_pos hc]
  · have hany : (st.payments.filter (fun q => decide (q.order_id = oid) &&
        decide (q.status = PaymentStatus.SUCCESS))).any
          (fun t => t.payment_id == q.payment_id) = false := by
      rw [List.any_eq_false]
      intro t ht h
      have ht' := List.mem_filter.mp ht
      have htq : t = q := huniq t ht'.1 q hq (beq_iff_eq.mp h)
      have hpred := ht'.2
      rw [htq] at hpred
      simp only [Bool.and_eq_true, decide_eq_true_eq] at hpred
      exact hc hpred
    rw [hany, if_neg (by simp), if_neg hc]

theorem inv_success_refunded_zero (p : Payment) (hinv : paymentInvariant p)
    (hs : p.status = PaymentStatus.SUCCESS) : p.refunded_amount = 0 := by
  obtain ⟨ha, h0, hra, href, hpart⟩ := hinv
  have h1 : ¬p.refunded_amount = p.amount := by
    intro h
    have h2 := href.mpr h
    rw [hs] at h2
    exact absurd h2 (by simp)
  have h2 : ¬(0 < p.refunded_amount ∧ p.refunded_amount < p.amount) := by
    intro h
    have h3 := hpart.mpr h
    rw [hs] at h3
    exact absurd h3 (by simp)
  omega

theorem refundAmount_pos (p : Payment) (req : RefundRequest)
    (hinv : paymentInvariant p) (hs : p.status = PaymentStatus.SUCCESS)
    (hv : refundValid req = true) : 0 < refundAmountOf p req := by
  cases hamt : req.amount with
  | some a =>
    have hra : refundAmountOf p req = a := by simp [refundAmountOf, hamt]
    unfold refundValid at hv
    rw [hamt] at hv
    simp only [Bool.and_eq_true, decide_eq_true_eq] at hv
    omega
  | none =>
    have h00 : p.refunded_amount = 0 := inv_success_refunded_zero p hinv hs
    have ha := hinv.1
    simp only [refundAmountOf, hamt, Option.getD_none]
    omega

theorem refundUpdated_invariant (p : Payment) (req : RefundRequest)
    (hinv : paymentInvariant p) (hs : p.status = PaymentStatus.SUCCESS)
    (hv : refundValid req = true)
    (hle : refundAmountOf p req ≤ p.amount - p.refunded_amount) :
    paymentInvariant (refundUpdated p req) := by
  have hra := refundAmount_pos p req hinv hs hv
  obtain ⟨ha, h0, hra2, _, _⟩ := hinv
  unfold paymentInvariant refundUpdated
  by_cases hco : p.amount ≤ p.refunded_amount + refundAmountOf p req
  · simp only [if_pos hco]
    exact ⟨ha, by omega, by omega, iff_of_true trivial (by omega),
           iff_of_false (by simp) (by omega)⟩
  · simp only [if_neg hco]
    exact ⟨ha, by omega, by omega, iff_of_false (by simp) (by omega),
           iff_of_true trivial (by omega)⟩

theorem cancelUpd_payment_id (oid : Int) (q : Payment) :
    (cancelUpd oid q).payment_id = q.payment_id := by
  unfold cancelUpd
  split
  · exact fullRefundIf_payment_id q
  · rfl

theorem cancelUpd_invariant (oid : Int) (q : Payment) (h : paymentInvariant q) :
    paymentInvariant (cancelUpd oid q) := by
  obtain ⟨ha, h0, hra, href, hpart⟩ := h
  unfold cancelUpd fullRefundIf fullRefund
  split
  · split
    · refine ⟨ha, ?_, ?_, ?_, ?_⟩
      · dsimp only
        omega
      · dsimp only
        omega
      · dsimp only
        exact iff_of_true rfl (by omega)
      · dsimp only
        exact iff_of_false (by simp) (by omega)
    · exact ⟨ha, h0, hra, href, hpart⟩
  · exact ⟨ha, h0, hra, href, hpart⟩

theorem cancelUpd_refunded_mono (oid : Int) (q : Payment) :
    q.refunded_amount ≤ (cancelUpd oid q).refunded_amount := by
  unfold cancelUpd fullRefundIf fullRefund
  split
  · split
    · dsimp only
      omega
    · exact le_refl _
  · exact le_refl _

theorem chargeValid_amount_pos (req : ChargeRequest) (hv : chargeValid req = true) :
    1 ≤ req.amount := by
  unfold chargeValid at hv
  simp only [Bool.and_eq_true, decide_eq_true_eq] at hv
  exact hv.1.1.1.1.2

theorem stateInv_charge (st : ServiceState) (req : ChargeRequest)
    (gw : GatewayOutcome) (b : Bool) (h : stateInv st) :
    stateInv (charge_payment st req gw b).1 := by
  obtain ⟨hinv, hfr, hpw⟩ := h
  have hfresh : ∀ q ∈ st.payments, q.payment_id ≠ st.nextPaymentId :=
    fun q hq => Nat.ne_of_lt (hfr q hq)
  rcases charge_cases st req gw b hfresh with heq | ⟨hv, pf, h1, h2, h3, h4, h5, h6⟩
  · rw [heq]; exact ⟨hinv, hfr, hpw⟩
  · have hamt := chargeValid_amount_pos req hv
    have hpfinv : paymentInvariant pf := by
      refine ⟨by rw [h4]; omega, by rw [h5], by rw [h5, h4]; omega, ?_, ?_⟩
      · refine iff_of_false ?_ (by rw [h5, h4]; omega)
        rcases h6 with h6 | h6 <;> rw [h6] <;> simp
      · refine iff_of_false ?_ (by rw [h5]; omega)
        rcases h6 with h6 | h6 <;> rw [h6] <;> simp
    refine ⟨?_, ?_, ?_⟩
    · intro q hq
      rw [h1] at hq
      rcases List.mem_append.mp hq with hq | hq
      · exact hinv q hq
      · have hqe : q = pf := by simpa using hq
        rw [hqe]; exact hpfinv
    · intro q hq
      rw [h1] at hq
      rw [h2]
      rcases List.mem_append.mp hq with hq | hq
      · have := hfr q hq; omega
      · have hqe : q = pf := by simpa using hq
        rw [hqe, h3]; omega
    · rw [h1]
      rw [List.pairwise_append]
      refine ⟨hpw, by simp, ?_⟩
      intro a ha c hc
      have hce : c = pf := by simpa using hc
      rw [hce, h3]
      exact hfr a ha

theorem stateInv_refund (st : ServiceState) (pid : Nat) (req : RefundRequest)
    (b : Bool) (h : stateInv st) : stateInv (refund_payment st pid req b).1 := by
  obtain ⟨hinv, hfr, hpw⟩ := h
  rcases refund_cases st pid req b with ⟨hP, hN, _⟩ | ⟨hv, p, hfp, hs, hle, hP, hN, _⟩
  · exact ⟨fun q hq => hinv q (hP ▸ hq), fun q hq => by rw [hN]; exact hfr q (hP ▸ hq),
      hP ▸ hpw⟩
  · have hmem : p ∈ st.payments := List.mem_of_find?_eq_some hfp
    have hupdinv : paymentInvariant (refundUpdated p req) :=
      refundUpdated_invariant p req (hinv p hmem) hs hv hle
    have gpid : ∀ q : Payment,
        ((fun q => if q.payment_id == p.payment_id then refundUpdated p req else q) q).payment_id
          = q.payment_id := by
      intro q
      by_cases hid : (q.payment_id == p.payment_id) = true
      · dsimp only
        rw [if_pos hid, refundUpdated_payment_id]
        exact (beq_iff_eq.mp hid).symm
      · dsimp only
        rw [if_neg hid]
    refine ⟨?_, ?_, ?_⟩
    · intro q hq
      rw [hP] at hq
      obtain ⟨q0, hq0, rfl⟩ := List.mem_map.mp hq
      by_cases hid : (q0.payment_id == p.payment_id) = true
      · rw [if_pos hid]; exact hupdinv
      · rw [if_neg hid]; exact hinv q0 hq0
    · intro q hq
      rw [hP] at hq
      rw [hN]
      obtain ⟨q0, hq0, rfl⟩ := List.mem_map.mp hq
      have := gpid q0
      dsimp only at this
      rw [this]
      exact hfr q0 hq0
    · rw [hP, List.pairwise_map]
      refine hpw.imp ?_
      intro a c hac
      have h1 := gpid a
      have h2 := gpid c
      dsimp only at h1 h2
      rw [h1, h2]
      exact hac

theorem stateInv_cancel (st : ServiceState) (oid : Option Int) (b : Bool)
    (h : stateInv st) : stateInv (handle_order_cancellation st oid b) := by
  cases oid with
  | none => exact h
  | some o =>
    obtain ⟨hinv, hfr, hpw⟩ := h
    obtain ⟨hP, _, _, hN, _⟩ := handle_cancel_chars st o b hpw
    refine ⟨?_, ?_, ?_⟩
    · intro q hq
      rw [hP] at hq
      obtain ⟨q0, hq0, rfl⟩ := List.mem_map.mp hq
      exact cancelUpd_invariant o q0 (hinv q0 hq0)
    · intro q hq
      rw [hP] at hq
      rw [hN]
      obtain ⟨q0, hq0, rfl⟩ := List.mem_map.mp hq
      rw [cancelUpd_payment_id]
      exact hfr q0 hq0
    · rw [hP, List.pairwise_map]
      refine hpw.imp ?_
      intro a c hac
      rw [cancelUpd_payment_id, cancelUpd_payment_id]
      exact hac

theorem stateInv_step (st : ServiceState) (op : SvcOp) (h : stateInv st) :
    stateInv (stepOp st op) := by
  cases op with
  | chargeOp req gw b => exact stateInv_charge st req gw b h
  | refundOp pid req b => exact stateInv_refund st pid req b h
  | cancelOp oid b => exact stateInv_cancel st oid b h

theorem stateInv_initial : stateInv initialState := by
  refine ⟨?_, ?_, ?_⟩ <;> simp [initialState]

theorem stateInv_foldl (ops : List SvcOp) :
    ∀ (st : ServiceState), stateInv st → stateInv (ops.foldl stepOp st) := by
  induction ops with
  | nil => intro st h; exact h
  | cons op ops ih =>
    intro st h
    rw [List.foldl_cons]
    exact ih _ (stateInv_step st op h)

theorem stateInv_runOps (ops : List SvcOp) : stateInv (runOps ops) :=
  stateInv_foldl ops initialState stateInv_initial

theorem find_charge (st : ServiceState) (req : ChargeRequest) (gw : GatewayOutcome)
    (b : Bool) (pid : Nat) (p : Payment)
    (hfresh : ∀ q ∈ st.payments, q.payment_id ≠ st.nextPaymentId)
    (hfp : findPayment st pid = some p) :
    findPayment (charge_payment st req gw b).1 pid = some p := by
  rcases charge_cases st req gw b hfresh with heq | ⟨_, pf, h1, _, _, _, _, _⟩
  · rw [heq]; exact hfp
  · unfold findPayment at hfp ⊢
    rw [h1]
    exact find_append_some _ _ _ _ hfp

theorem refundUpd_fun_payment_id (pt : Payment) (req : RefundRequest) (q : Payment) :
    (if q.payment_id == pt.payment_id then refundUpdated pt req else q).payment_id
      = q.payment_id := by
  by_cases hid : (q.payment_id == pt.payment_id) = true
  · rw [if_pos hid, refundUpdated_payment_id]
    exact (beq_iff_eq.mp hid).symm
  · rw [if_neg hid]

theorem mono_refund (st : ServiceState) (pid0 : Nat) (req : RefundRequest) (b : Bool)
    (h : stateInv st) (pid : Nat) (p : Payment)
    (hfp : findPayment st pid = some p) :
    ∃ p', findPayment (refund_payment st pid0 req b).1 pid = some p' ∧
      p.refunded_amount ≤ p'.refunded_amount := by
  obtain ⟨hinv, hfr, hpw⟩ := h
  rcases refund_cases st pid0 req b with ⟨hP, _, _⟩ | ⟨hv, pt, hft, hs, hle, hP, _, _⟩
  · refine ⟨p, ?_, le_refl _⟩
    unfold findPayment at hfp ⊢
    rw [hP]
    exact hfp
  · unfold findPayment at hfp ⊢
    rw [hP, find_map_pres _ (refundUpd_fun_payment_id pt req) pid st.payments, hfp]
    simp only [Option.map_some']
    refine ⟨_, rfl, ?_⟩
    dsimp only
    by_cases hid : (p.payment_id == pt.payment_id) = true
    · rw [if_pos hid]
      have hpe : p = pt :=
        pairwise_id_unique st.payments hpw p (List.mem_of_find?_eq_some hfp) pt
          (List.mem_of_find?_eq_some hft) (beq_iff_eq.mp hid)
      have hpos := refundAmount_pos pt req (hinv pt (List.mem_of_find?_eq_some hft)) hs hv
      rw [refundUpdated_refunded_amount, hpe]
      omega
    · rw [if_neg hid]

theorem mono_cancel (st : ServiceState) (oid : Option Int) (b : Bool)
    (h : stateInv st) (pid : Nat) (p : Payment)
    (hfp : findPayment st pid = some p) :
    ∃ p', findPayment (handle_order_cancellation st oid b) pid = some p' ∧
      p.refunded_amount ≤ p'.refunded_amount := by
  cases oid with
  | none => exact ⟨p, hfp, le_refl _⟩
  | some o =>
    obtain ⟨hinv, hfr, hpw⟩ := h
    obtain ⟨hP, _, _, _, _⟩ := handle_cancel_chars st o b hpw
    unfold findPayment at hfp ⊢
    rw [hP, find_map_pres _ (cancelUpd_payment_id o) pid st.payments, hfp]
    simp only [Option.map_some']
    exact ⟨cancelUpd o p, rfl, cancelUpd_refunded_mono o p⟩

theorem mono_step (st : ServiceState) (op : SvcOp) (h : stateInv st) (pid : Nat)
    (p : Payment) (hfp : findPayment st pid = some p) :
    ∃ p', findPayment (stepOp st op) pid = some p' ∧
      p.refunded_amount ≤ p'.refunded_amount := by
  cases op with
  | chargeOp req gw b =>
    refine ⟨p, ?_, le_refl _⟩
    exact find_charge st req gw b pid p (fun q hq => Nat.ne_of_lt (h.2.1 q hq)) hfp
  | refundOp pid0 req b => exact mono_refund st pid0 req b h pid p hfp
  | cancelOp oid b => exact mono_cancel st oid b h pid p hfp

theorem mono_foldl (more : List SvcOp) :
    ∀ (st : ServiceState), stateInv st → ∀ (pid : Nat) (p : Payment),
      findPayment st pid = some p →
      ∃ p', findPayment (more.foldl stepOp st) pid = some p' ∧
        p.refunded_amount ≤ p'.refunded_amount := by
  induction more with
  | nil => intro st _ pid p h; exact ⟨p, h, le_refl _⟩
  | cons op more ih =>
    intro st hst pid p hfp
    obtain ⟨p1, hf1, hle1⟩ := mono_step st op hst pid p hfp
    obtain ⟨p', hf', hle'⟩ := ih (stepOp st op) (stateInv_step st op hst) pid p1 hf1
    refine ⟨p', ?_, le_trans hle1 hle'⟩
    rw [List.foldl_cons]
    exact hf'

/-- Claim C2: after every reachable sequence of operations, every payment
satisfies 0 <= refunded_amount <= amount, its status is REFUNDED exactly when
refunded_amount equals amount and PARTIAL_REFUND exactly when
0 < refunded_amount < amount, and refunded_amount never decreases across any
further sequence of operations. -/
theorem claim_C2_invariants (ops more : List SvcOp) :
    (∀ p ∈ (runOps ops).payments, paymentInvariant p) ∧
    (∀ (pid : Nat) (p p' : Payment), findPayment (runOps ops) pid = some p →
      findPayment (runOps (ops ++ more)) pid = some p' →
      p.refunded_amount ≤ p'.refunded_amount) := by
  have hInv := stateInv_runOps ops
  refine ⟨hInv.1, ?_⟩
  intro pid p p' hfp hfp'
  have hrun : runOps (ops ++ more) = more.foldl stepOp (runOps ops) := by
    unfold runOps
    rw [List.foldl_append]
  obtain ⟨p2, hf2, hle⟩ := mono_foldl more (runOps ops) hInv pid p hfp
  rw [hrun, hf2] at hfp'
  injection hfp' with h
  rw [← h]
  exact hle

/-- Witness for claim C2 at a concrete run: one successful charge of 100.00,
then a 30.00 refund; the invariant holds and the refunded amount
did not decrease. -/
theorem claim_C2_witness :
    paymentInvariant c2PayB ∧ c2PayA.refunded_amount ≤ c2PayB.refunded_amount := by
  refine ⟨?_, ?_⟩
  · exact (claim_C2_invariants (c2Ops ++ c2More) []).1 c2PayB (by decide)
  · exact (claim_C2_invariants c2Ops c2More).2 1 c2PayA c2PayB (by decide) (by decide)

theorem upd_append_fresh {α : Type} (f : α → Bool) (r0 r1 : α) (hf0 : f r0 = true)
    (l : List α) (h : ∀ q ∈ l, f q = false) :
    (l ++ [r0]).map (fun q => if f q then r1 else q) = l ++ [r1] := by
  induction l with
  | nil => simp [hf0]
  | cons x xs ih =>
    rw [List.cons_append, List.map_cons,
        if_neg (by simp [h x (List.mem_cons_self x xs)]),
        ih (fun q hq => h q (List.mem_cons_of_mem x hq))]
    rfl

theorem chargeProcess_ok_payments (st : ServiceState) (req : ChargeRequest)
    (r : IdemRecord) (b : Bool)
    (hfr : ∀ q ∈ st.payments, q.payment_id ≠ st.nextPaymentId) :
    (chargeProcess st req r GatewayOutcome.ok b).1.payments
      = st.payments ++ [chargeSuccessPayment st req] := by
  simp only [chargeProcess, publish_payments, setKey_payments, savePayment_payments]
  have hfr' : ∀ q ∈ st.payments, q.payment_id ≠ (chargePending st req).payment_id := hfr
  exact save_append_fresh st.payments (chargePending st req)
    (chargeSuccessPayment st req) hfr'

theorem chargeProcess_ok_idemKeys (st : ServiceState) (req : ChargeRequest)
    (r : IdemRecord) (b : Bool) (l : List IdemRecord)
    (hsplit : st.idemKeys = l ++ [r])
    (hkeys : ∀ q ∈ l, (q.key == r.key) = false) :
    (chargeProcess st req r GatewayOutcome.ok b).1.idemKeys
      = l ++ [chargeCompletedRecord st r] := by
  simp only [chargeProcess, publish_idemKeys, setKey_idemKeys, savePayment_idemKeys]
  rw [hsplit]
  rw [upd_append_fresh (fun q => q.key == r.key) r _ (by simp) l hkeys]
  rw [upd_append_fresh (fun q => q.key == r.key) _ _ (by simp) l hkeys]
  rfl

theorem chargeProcess_ok_result (st : ServiceState) (req : ChargeRequest)
    (r : IdemRecord) (b : Bool) :
    (chargeProcess st req r GatewayOutcome.ok b).2
      = ChargeResult.success (chargeSuccessPayment st req) := by
  cases b <;> rfl

theorem charge_fresh_ok_state (st : ServiceState) (req : ChargeRequest) (b : Bool)
    (hv : chargeValid req = true)
    (hfr : ∀ q ∈ st.payments, q.payment_id ≠ st.nextPaymentId)
    (hnew : findKey st req.idempotency_key = none) :
    (charge_payment st req GatewayOutcome.ok b).1.payments
        = st.payments ++ [chargeSuccessPayment st req] ∧
    (charge_payment st req GatewayOutcome.ok b).1.idemKeys
        = st.idemKeys ++ [completedChargeKey st req] ∧
    (charge_payment st req GatewayOutcome.ok b).1.nextPaymentId = st.nextPaymentId + 1 ∧
    (charge_payment st req GatewayOutcome.ok b).1.gatewayCalls = st.gatewayCalls + 1 ∧
    (charge_payment st req GatewayOutcome.ok b).2
        = ChargeResult.success (chargeSuccessPayment st req) := by
  have hkeys : ∀ q ∈ st.idemKeys, (q.key == req.idempotency_key) = false := by
    intro q hq
    have h1 := List.find?_eq_none.mp hnew q hq
    exact Bool.not_eq_true _ ▸ h1
  refine ⟨?_, ?_, ?_, ?_, ?_⟩
  · simp only [charge_payment, hv, hnew]
    simp only [Bool.true_eq_false, if_false]
    exact chargeProcess_ok_payments _ req _ b hfr
  · simp only [charge_payment, hv, hnew]
    simp only [Bool.true_eq_false, if_false]
    exact chargeProcess_ok_idemKeys _ req _ b st.idemKeys rfl hkeys
  · simp only [charge_payment, hv, hnew]
    simp only [Bool.true_eq_false, if_false]
    exact chargeProcess_nextPaymentId _ req _ GatewayOutcome.ok b
  · simp only [charge_payment, hv, hnew]
    simp only [Bool.true_eq_false, if_false]
    exact chargeProcess_gatewayCalls _ req _ GatewayOutcome.ok b
  · simp only [charge_payment, hv, hnew]
    simp only [Bool.true_eq_false, if_false]
    exact chargeProcess_ok_result _ req _ b

/-- Claim C1 (amended): for a fresh idempotency key whose first charge
succeeds at the gateway, exactly one Payment is created and the gateway is
invoked once, and any second charge call with the same key performs no side
effects, returning the same payment view as a replay.  (As originally
stated the claim is false: a gateway-failed charge leaves a FAILED record
that a later call with the same key falls through, creating a second
Payment and invoking the gateway again - see the counterexample.) -/
theorem claim_C1_amended (st : ServiceState) (req : ChargeRequest)
    (gw2 : GatewayOutcome) (b1 b2 : Bool)
    (hv : chargeValid req = true)
    (hfr : ∀ q ∈ st.payments, q.payment_id ≠ st.nextPaymentId)
    (hnew : findKey st req.idempotency_key = none) :
    ∃ p, (charge_payment st req GatewayOutcome.ok b1).2 = ChargeResult.success p ∧
      (charge_payment st req GatewayOutcome.ok b1).1.payments = st.payments ++ [p] ∧
      (charge_payment st req GatewayOutcome.ok b1).1.gatewayCalls
          = st.gatewayCalls + 1 ∧
      charge_payment (charge_payment st req GatewayOutcome.ok b1).1 req gw2 b2
        = ((charge_payment st req GatewayOutcome.ok b1).1,
           ChargeResult.replayed p) := by
  obtain ⟨hP, hK, hN, hG, hR⟩ := charge_fresh_ok_state st req b1 hv hfr hnew
  set st1 := (charge_payment st req GatewayOutcome.ok b1).1 with hst1
  refine ⟨chargeSuccessPayment st req, hR, hP, hG, ?_⟩
  have hnew' : st.idemKeys.find? (fun q => q.key == req.idempotency_key) = none := hnew
  have hfind : findKey st1 req.idempotency_key = some (completedChargeKey st req) := by
    unfold findKey
    rw [hK, find_append_none _ _ _ hnew']
    simp [List.find?_cons, completedChargeKey]
  have hfindp : findPayment st1 st.nextPaymentId
      = some (chargeSuccessPayment st req) := by
    unfold findPayment
    rw [hP, find_append_none _ _ _
      (List.find?_eq_none.mpr (fun q hq h => hfr q hq (beq_iff_eq.mp h)))]
    simp [List.find?_cons, chargeSuccessPayment, chargePending]
  simp only [charge_payment, hv, hfind, hfindp, completedChargeKey]
  simp

/-- Witness for claim C1 (amended): a concrete successful charge followed by
a retry with the same key, which replays without side effects. -/
theorem claim_C1_witness :
    ∃ p, (charge_payment initialState c1Req GatewayOutcome.ok true).2
          = ChargeResult.success p ∧
      (charge_payment initialState c1Req GatewayOutcome.ok true).1.payments
          = initialState.payments ++ [p] ∧
      (charge_payment initialState c1Req GatewayOutcome.ok true).1.gatewayCalls
          = initialState.gatewayCalls + 1 ∧
      charge_payment (charge_payment initialState c1Req GatewayOutcome.ok true).1
          c1Req GatewayOutcome.ok false
        = ((charge_payment initialState c1Req GatewayOutcome.ok true).1,
           ChargeResult.replayed p) :=
  claim_C1_amended initialState c1Req GatewayOutcome.ok true false
    (by decide) (by decide) (by decide)

/-- Counterexample to claim C1 as stated: after a gateway-declined charge,
a second charge with the same idempotency key creates a second Payment and
invokes the gateway a second time. -/
theorem claim_C1_counterexample :
    c1State.payments.length = 2 ∧ c1State.gatewayCalls = 2 := by decide

/-- Claim C5 (amended): a charge whose idempotency key maps to an existing
FAILED record does not signal Conflict; it falls through the replay checks,
creates a new Payment and invokes the gateway again.  (As originally stated
the claim is false - see the counterexample.) -/
theorem claim_C5_amended (st : ServiceState) (req : ChargeRequest)
    (gw : GatewayOutcome) (b : Bool) (r : IdemRecord)
    (hv : chargeValid req = true)
    (hfr : ∀ q ∈ st.payments, q.payment_id ≠ st.nextPaymentId)
    (hk : findKey st req.idempotency_key = some r)
    (hrs : r.status = IdemStatus.FAILED) :
    (charge_payment st req gw b).2 ≠ ChargeResult.conflict ∧
    (charge_payment st req gw b).1.payments.length = st.payments.length + 1 ∧
    (charge_payment st req gw b).1.gatewayCalls = st.gatewayCalls + 1 := by
  have hred : charge_payment st req gw b = chargeProcess st req r gw b := by
    simp [charge_payment, hv, hk, hrs]
  rw [hred]
  obtain ⟨pf, h1, hc, _, _, _, _, _⟩ := chargeProcess_payments st req r gw b hfr
  refine ⟨hc, ?_, chargeProcess_gatewayCalls st req r gw b⟩
  rw [h1]
  simp

/-- Witness for claim C5 (amended): retrying a concrete gateway-declined
charge with the same key re-creates a payment and re-invokes the gateway. -/
theorem claim_C5_witness :
    (charge_payment c5State c5Req GatewayOutcome.ok false).2 ≠ ChargeResult.conflict ∧
    (charge_payment c5State c5Req GatewayOutcome.ok false).1.payments.length
        = c5State.payments.length + 1 ∧
    (charge_payment c5State c5Req GatewayOutcome.ok false).1.gatewayCalls
        = c5State.gatewayCalls + 1 :=
  claim_C5_amended c5State c5Req GatewayOutcome.ok false c5FailedRecord
    (by decide) (by decide) (by decide) (by decide)

/-- Counterexample to claim C5 as stated: with the key's record FAILED after
a declined charge, a second charge call does not return Conflict - it
creates a second Payment and invokes the gateway a second time. -/
theorem claim_C5_counterexample :
    (findKey c5State c5Req.idempotency_key).map IdemRecord.status
        = some IdemStatus.FAILED ∧
    (charge_payment c5State c5Req GatewayOutcome.ok true).2 ≠ ChargeResult.conflict ∧
    (charge_payment c5State c5Req GatewayOutcome.ok true).1.payments.length = 2 ∧
    (charge_payment c5State c5Req GatewayOutcome.ok true).1.gatewayCalls = 2 := by
  decide

/-- Claim C3 (amended): the refund operation signals InvalidState exactly
when the payment's status is not SUCCESS - in particular PARTIAL_REFUND
payments are rejected too.  On a payment with amount 100.00, a refund of
30.00 yields PARTIAL_REFUND with refunded_amount 30.00, but the subsequent
refund of the remaining 70.00 is rejected with InvalidState rather than
completing the refund.  (As originally stated the claim is false - see the
counterexample.) -/
theorem claim_C3_amended (st : ServiceState) (pid : Nat) (req : RefundRequest)
    (b : Bool) (p : Payment)
    (hv : refundValid req = true) (hfp : findPayment st pid = some p) :
    ((refund_payment st pid req b).2 = RefundResult.invalidState
        ↔ p.status ≠ PaymentStatus.SUCCESS) ∧
    (findPayment c3State 1).map Payment.status = some PaymentStatus.PARTIAL_REFUND ∧
    (findPayment c3State 1).map Payment.refunded_amount = some 3000 ∧
    (refund_payment c3State 1 c3SecondRefund true).2 = RefundResult.invalidState := by
  refine ⟨?_, by decide, by decide, by decide⟩
  rcases Decidable.em (p.status = PaymentStatus.SUCCESS) with hs | hs
  · refine iff_of_false ?_ (by simp [hs])
    cases hk : findKey st (refundScopedKey pid req.idempotency_key) with
    | some r =>
      by_cases hrs : r.status = IdemStatus.COMPLETED
      · simp [refund_payment, hv, hfp, hs, hk, hrs]
      · rcases refundApply_cases st pid p req r b with ⟨heq, _⟩ | ⟨_, _, _, _, hres⟩
        · simp [refund_payment, hv, hfp, hs, hk, hrs, heq]
        · simp [refund_payment, hv, hfp, hs, hk, hrs, hres]
    | none =>
      rcases refundApply_cases
          { st with idemKeys := st.idemKeys ++
              [{ key := refundScopedKey pid req.idempotency_key,
                 payment := some pid, status := IdemStatus.PROCESSING }] }
          pid p req
          { key := refundScopedKey pid req.idempotency_key,
            payment := some pid, status := IdemStatus.PROCESSING } b
        with ⟨heq, _⟩ | ⟨_, _, _, _, hres⟩
      · simp [refund_payment, hv, hfp, hs, hk, heq]
      · simp [refund_payment, hv, hfp, hs, hk, hres]
  · exact iff_of_true (by simp [refund_payment, hv, hfp, hs]) hs

/-- Witness for claim C3 (amended), instantiated at the concrete
partially-refunded payment: the second refund is rejected as InvalidState
because the status is PARTIAL_REFUND, not SUCCESS. -/
theorem claim_C3_witness :
    ((refund_payment c3State 1 c3SecondRefund true).2 = RefundResult.invalidState
        ↔ c3Pay.status ≠ PaymentStatus.SUCCESS) ∧
    (findPayment c3State 1).map Payment.status = some PaymentStatus.PARTIAL_REFUND ∧
    (findPayment c3State 1).map Payment.refunded_amount = some 3000 ∧
    (refund_payment c3State 1 c3SecondRefund true).2 = RefundResult.invalidState :=
  claim_C3_amended c3State 1 c3SecondRefund true c3Pay (by decide) (by decide)

/-- Counterexample to claim C3 as stated: after the 30.00 refund the payment
is PARTIAL_REFUND with refunded_amount 30.00, and the refund of the
remaining 70.00 returns InvalidState, leaving the payment unchanged instead
of transitioning it to REFUNDED with refunded_amount 100.00. -/
theorem claim_C3_counterexample :
    (refund_payment c3State 1 c3SecondRefund true).2 = RefundResult.invalidState ∧
    (findPayment (refund_payment c3State 1 c3SecondRefund true).1 1).map
        Payment.status = some PaymentStatus.PARTIAL_REFUND ∧
    (findPayment (refund_payment c3State 1 c3SecondRefund true).1 1).map
        Payment.refunded_amount = some 3000 := by
  decide

/-- Claim C9: on a fully refunded payment (status REFUNDED), retrying the
refund - even with the original idempotency key, whose refund-scoped record
exists with status COMPLETED - returns InvalidState and not an idempotent
replay, because the status guard runs before the idempotency lookup. -/
theorem claim_C9 (st : ServiceState) (pid : Nat) (req : RefundRequest) (b : Bool)
    (p : Payment) (r : IdemRecord)
    (hv : refundValid req = true)
    (hfp : findPayment st pid = some p)
    (hst : p.status = PaymentStatus.REFUNDED)
    (hr : findKey st (refundScopedKey pid req.idempotency_key) = some r)
    (hc : r.status = IdemStatus.COMPLETED) :
    refund_payment st pid req b = (st, RefundResult.invalidState) := by
  have hs : ¬p.status = PaymentStatus.SUCCESS := by rw [hst]; simp
  simp [refund_payment, hv, hfp, hs]

/-- Witness for claim C9: after a concrete full refund, retrying the refund
with the original key yields InvalidState despite the COMPLETED record. -/
theorem claim_C9_witness :
    refund_payment c9State 1 c9Refund true = (c9State, RefundResult.invalidState) :=
  claim_C9 c9State 1 c9Refund true c9Pay c9Record
    (by decide) (by decide) (by decide) (by decide) (by decide)

/-- Claim C10: a refund whose refund-scoped idempotency record already
exists with status PROCESSING does not signal Conflict - it recomputes and
applies the refund and overwrites the record to COMPLETED - whereas a
charge whose record is PROCESSING returns Conflict. -/
theorem claim_C10 (st : ServiceState) (pid : Nat) (req : RefundRequest) (b : Bool)
    (p : Payment) (r : IdemRecord) (a : Int)
    (st2 : ServiceState) (req2 : ChargeRequest) (gw : GatewayOutcome) (b2 : Bool)
    (r2 : IdemRecord)
    (hv : refundValid req = true)
    (hfp : findPayment st pid = some p)
    (hs : p.status = PaymentStatus.SUCCESS)
    (hr : findKey st (refundScopedKey pid req.idempotency_key) = some r)
    (hproc : r.status = IdemStatus.PROCESSING)
    (hamt : req.amount = some a)
    (hle : a ≤ p.amount - p.refunded_amount)
    (hv2 : chargeValid req2 = true)
    (hk2 : findKey st2 req2.idempotency_key = some r2)
    (hproc2 : r2.status = IdemStatus.PROCESSING) :
    (refund_payment st pid req b).2 = RefundResult.refunded a (refundUpdated p req) ∧
    (refundUpdated p req).refunded_amount = p.refunded_amount + a ∧
    findKey (refund_payment st pid req b).1 (refundScopedKey pid req.idempotency_key)
        = some { r with status := IdemStatus.COMPLETED } ∧
    charge_payment st2 req2 gw b2 = (st2, ChargeResult.conflict) := by
  have hra : refundAmountOf p req = a := by simp [refundAmountOf, hamt]
  have hnlt : ¬(p.amount - p.refunded_amount < refundAmountOf p req) := by
    rw [hra]; omega
  have hred : refund_payment st pid req b = refundApply st pid p req r b := by
    simp [refund_payment, hv, hfp, hs, hr, hproc]
  have hkey : r.key = refundScopedKey pid req.idempotency_key := by
    have h1 := List.find?_some hr
    exact beq_iff_eq.mp h1
  refine ⟨?_, ?_, ?_, ?_⟩
  · rw [hred]
    simp only [refundApply, hra]
    rw [if_neg (show ¬(p.amount - p.refunded_amount < a) by omega)]
  · rw [refundUpdated_refunded_amount, hra]
  · rw [hred]
    have hkeys3 : (refundApply st pid p req r b).1.idemKeys
        = st.idemKeys.map (fun q =>
            if q.key == r.key then { r with status := IdemStatus.COMPLETED } else q) := by
      simp only [refundApply, if_neg hnlt, publish_idemKeys, setKey_idemKeys,
        savePayment_idemKeys]
    unfold findKey
    rw [hkeys3, hkey]
    exact find_map_upd _ _ (by simp [hkey]) st.idemKeys r hr
  · simp [charge_payment, hv2, hk2, hproc2]

/-- Witness for claim C10: a concrete PROCESSING refund record is not a
conflict - the refund applies and the record completes - while a concrete
PROCESSING charge record yields Conflict. -/
theorem claim_C10_witness :
    (refund_payment c10State 1 c10Refund true).2
        = RefundResult.refunded 2000 (refundUpdated c10Pay c10Refund) ∧
    (refundUpdated c10Pay c10Refund).refunded_amount = c10Pay.refunded_amount + 2000 ∧
    findKey (refund_payment c10State 1 c10Refund true).1
        (refundScopedKey 1 c10Refund.idempotency_key)
        = some { c10Record with status := IdemStatus.COMPLETED } ∧
    charge_payment c10ChargeState c10ChargeReq GatewayOutcome.ok true
        = (c10ChargeState, ChargeResult.conflict) :=
  claim_C10 c10State 1 c10Refund true c10Pay c10Record 2000
    c10ChargeState c10ChargeReq GatewayOutcome.ok true c10ChargeRecord
    (by decide) (by decide) (by decide) (by decide) (by decide) (by decide)
    (by decide) (by decide) (by decide) (by decide)

/-- Claim C4 (amended): on a refundable payment, a supplied refund amount
of zero or less is rejected by input validation (ValidationError) before any
refund logic runs, leaving the state untouched; a positive supplied amount
exceeding the remaining balance is rejected with InvalidAmount and the
payment is left unchanged; and a refund of exactly the remaining balance
succeeds, setting refunded_amount to the full amount and status REFUNDED.
(As originally stated - that an effective amount <= 0 signals InvalidAmount
- the claim is false: the serializer rejects it as a validation error before
the refund logic; see the counterexample.) -/
theorem claim_C4_amended (st : ServiceState) (pid : Nat) (k : String) (b : Bool)
    (p : Payment) (a1 a2 : Int)
    (hfp : findPayment st pid = some p)
    (hs : p.status = PaymentStatus.SUCCESS)
    (hk1 : 1 ≤ k.length) (hk2 : k.length ≤ 255)
    (hnorep : ∀ r, findKey st (refundScopedKey pid k) = some r →
        ¬r.status = IdemStatus.COMPLETED)
    (ha1 : a1 ≤ 0)
    (ha2 : 0 < a2) (ha2m : a2 ≤ 9999999999)
    (hgt : p.amount - p.refunded_amount < a2)
    (hrem : 0 < p.amount - p.refunded_amount)
    (hremm : p.amount - p.refunded_amount ≤ 9999999999) :
    refund_payment st pid (mkRefundReq (some a1) k) b
        = (st, RefundResult.validationError) ∧
    ((refund_payment st pid (mkRefundReq (some a2) k) b).2
        = RefundResult.invalidAmount (p.amount - p.refunded_amount) ∧
      findPayment (refund_payment st pid (mkRefundReq (some a2) k) b).1 pid
        = some p) ∧
    ((refund_payment st pid (mkRefundReq (some (p.amount - p.refunded_amount)) k) b).2
        = RefundResult.refunded (p.amount - p.refunded_amount)
            (refundUpdated p (mkRefundReq (some (p.amount - p.refunded_amount)) k)) ∧
      (refundUpdated p (mkRefundReq (some (p.amount - p.refunded_amount)) k)).status
        = PaymentStatus.REFUNDED ∧
      (refundUpdated p (mkRefundReq (some (p.amount - p.refunded_amount)) k)).refunded_amount
        = p.amount ∧
      findPayment
          (refund_payment st pid (mkRefundReq (some (p.amount - p.refunded_amount)) k) b).1
          pid
        = some (refundUpdated p (mkRefundReq (some (p.amount - p.refunded_amount)) k))) := by
  have hfp' : st.payments.find? (fun q => q.payment_id == pid) = some p := hfp
  have hpt := List.find?_some hfp'
  have hpid : p.payment_id = pid := beq_iff_eq.mp hpt
  refine ⟨?_, ?_, ?_⟩
  · have hvf : refundValid (mkRefundReq (some a1) k) = false := by
      simp [refundValid, mkRefundReq]
      omega
    simp [refund_payment, hvf]
  · have hvt : refundValid (mkRefundReq (some a2) k) = true := by
      simp [refundValid, mkRefundReq]
      omega
    have hra : refundAmountOf p (mkRefundReq (some a2) k) = a2 := rfl
    cases hkf : findKey st (refundScopedKey pid k) with
    | some r =>
      have hrs := hnorep r hkf
      have hvtL : refundValid { amount := some a2, reason := none, idempotency_key := k } = true := hvt
      have hred : refund_payment st pid (mkRefundReq (some a2) k) b
          = refundApply st pid p (mkRefundReq (some a2) k) r b := by
        simp [refund_payment, mkRefundReq, hvtL, hfp, hs, hkf, hrs]
      rw [hred]
      simp only [refundApply, hra]
      rw [if_pos hgt]
      exact ⟨rfl, hfp⟩
    | none =>
      have hred : refund_payment st pid (mkRefundReq (some a2) k) b
          = refundApply { st with idemKeys := st.idemKeys ++
              [{ key := refundScopedKey pid k,
                 payment := some pid, status := IdemStatus.PROCESSING }] }
            pid p (mkRefundReq (some a2) k)
            { key := refundScopedKey pid k,
              payment := some pid, status := IdemStatus.PROCESSING } b := by
        have hvtL : refundValid { amount := some a2, reason := none, idempotency_key := k } = true := hvt
        simp [refund_payment, mkRefundReq, hvtL, hfp, hs, hkf]
      rw [hred]
      simp only [refundApply, hra]
      rw [if_pos hgt]
      exact ⟨rfl, hfp⟩
  · have hvt : refundValid (mkRefundReq (some (p.amount - p.refunded_amount)) k)
        = true := by
      simp [refundValid, mkRefundReq]
      omega
    have hra : refundAmountOf p (mkRefundReq (some (p.amount - p.refunded_amount)) k)
        = p.amount - p.refunded_amount := rfl
    have hstat : (refundUpdated p
        (mkRefundReq (some (p.amount - p.refunded_amount)) k)).status
        = PaymentStatus.REFUNDED := by
      unfold refundUpdated refundAmountOf mkRefundReq
      dsimp only [Option.getD_some]
      rw [if_pos (by omega)]
    have hramt : (refundUpdated p
        (mkRefundReq (some (p.amount - p.refunded_amount)) k)).refunded_amount
        = p.amount := by
      rw [refundUpdated_refunded_amount, hra]
      omega
    have hfR : ((refundUpdated p
        (mkRefundReq (some (p.amount - p.refunded_amount)) k)).payment_id == pid)
        = true := by
      rw [refundUpdated_payment_id, hpid]
      exact beq_self_eq_true pid
    cases hkf : findKey st (refundScopedKey pid k) with
    | some r =>
      have hrs := hnorep r hkf
      have hvtL : refundValid { amount := some (p.amount - p.refunded_amount), reason := none, idempotency_key := k } = true := hvt
      have hred : refund_payment st pid (mkRefundReq (some (p.amount - p.refunded_amount)) k) b
          = refundApply st pid p (mkRefundReq (some (p.amount - p.refunded_amount)) k) r b := by
        simp [refund_payment, mkRefundReq, hvtL, hfp, hs, hkf, hrs]
      rw [hred]
      have hpay : (refundApply st pid p
          (mkRefundReq (some (p.amount - p.refunded_amount)) k) r b).1.payments
          = st.payments.map (fun q =>
              if q.payment_id == p.payment_id
              then refundUpdated p (mkRefundReq (some (p.amount - p.refunded_amount)) k)
              else q) := by
        simp only [refundApply, hra]
        rw [if_neg (lt_irrefl _)]
        simp only [publish_payments, setKey_payments, savePayment_payments,
          refundUpdated_payment_id]
      refine ⟨?_, hstat, hramt, ?_⟩
      · simp only [refundApply, hra]
        rw [if_neg (lt_irrefl _)]
      · unfold findPayment
        rw [hpay, hpid]
        exact find_map_upd (fun q => q.payment_id == pid)
          (refundUpdated p (mkRefundReq (some (p.amount - p.refunded_amount)) k))
          hfR st.payments p hfp'
    | none =>
      have hred : refund_payment st pid (mkRefundReq (some (p.amount - p.refunded_amount)) k) b
          = refundApply { st with idemKeys := st.idemKeys ++
              [{ key := refundScopedKey pid k,
                 payment := some pid, status := IdemStatus.PROCESSING }] }
            pid p (mkRefundReq (some (p.amount - p.refunded_amount)) k)
            { key := refundScopedKey pid k,
              payment := some pid, status := IdemStatus.PROCESSING } b := by
        have hvtL : refundValid { amount := some (p.amount - p.refunded_amount), reason := none, idempotency_key := k } = true := hvt
        simp [refund_payment, mkRefundReq, hvtL, hfp, hs, hkf]
      rw [hred]
      have hpay : (refundApply { st with idemKeys := st.idemKeys ++
              [{ key := refundScopedKey pid k,
                 payment := some pid, status := IdemStatus.PROCESSING }] }
            pid p (mkRefundReq (some (p.amount - p.refunded_amount)) k)
            { key := refundScopedKey pid k,
              payment := some pid, status := IdemStatus.PROCESSING } b).1.payments
          = st.payments.map (fun q =>
              if q.payment_id == p.payment_id
              then refundUpdated p (mkRefundReq (some (p.amount - p.refunded_amount)) k)
              else q) := by
        simp only [refundApply, hra]
        rw [if_neg (lt_irrefl _)]
        simp only [publish_payments, setKey_payments, savePayment_payments,
          refundUpdated_payment_id]
      refine ⟨?_, hstat, hramt, ?_⟩
      · simp only [refundApply, hra]
        rw [if_neg (lt_irrefl _)]
      · unfold findPayment
        rw [hpay, hpid]
        exact find_map_upd (fun q => q.payment_id == pid)
          (refundUpdated p (mkRefundReq (some (p.amount - p.refunded_amount)) k))
          hfR st.payments p hfp'

/-- Witness for claim C4 (amended) on a concrete 100.00 SUCCESS payment:
a supplied amount of 0 is a validation error, 100.01 is InvalidAmount with
the payment untouched, and exactly 100.00 refunds in full to REFUNDED. -/
theorem claim_C4_witness :
    refund_payment c4State 1 (mkRefundReq (some 0) ("c4-refund-key")) true
        = (c4State, RefundResult.validationError) ∧
    ((refund_payment c4State 1 (mkRefundReq (some 10001) ("c4-refund-key")) true).2
        = RefundResult.invalidAmount (c4Pay.amount - c4Pay.refunded_amount) ∧
      findPayment
          (refund_payment c4State 1 (mkRefundReq (some 10001) ("c4-refund-key")) true).1 1
        = some c4Pay) ∧
    ((refund_payment c4State 1
          (mkRefundReq (some (c4Pay.amount - c4Pay.refunded_amount)) ("c4-refund-key")) true).2
        = RefundResult.refunded (c4Pay.amount - c4Pay.refunded_amount)
            (refundUpdated c4Pay
              (mkRefundReq (some (c4Pay.amount - c4Pay.refunded_amount)) ("c4-refund-key"))) ∧
      (refundUpdated c4Pay
          (mkRefundReq (some (c4Pay.amount - c4Pay.refunded_amount)) ("c4-refund-key"))).status
        = PaymentStatus.REFUNDED ∧
      (refundUpdated c4Pay
          (mkRefundReq (some (c4Pay.amount - c4Pay.refunded_amount)) ("c4-refund-key"))).refunded_amount
        = c4Pay.amount ∧
      findPayment
          (refund_payment c4State 1
            (mkRefundReq (some (c4Pay.amount - c4Pay.refunded_amount)) ("c4-refund-key")) true).1 1
        = some (refundUpdated c4Pay
            (mkRefundReq (some (c4Pay.amount - c4Pay.refunded_amount)) ("c4-refund-key")))) :=
  claim_C4_amended c4State 1 ("c4-refund-key") true c4Pay 0 10001
    (by decide) (by decide) (by decide) (by decide)
    (by intro r h
        rw [show findKey c4State (refundScopedKey 1 ("c4-refund-key")) = none from
          by decide] at h
        exact Option.noConfusion h)
    (by decide) (by decide) (by decide) (by decide) (by decide) (by decide)

/-- Counterexample to claim C4 as stated: a supplied refund amount of 0
(effective amount <= 0) on a refundable payment is answered with a
validation error, not with InvalidAmount. -/
theorem claim_C4_counterexample :
    (refund_payment c4State 1 (mkRefundReq (some 0) ("c4-refund-key")) true).2
        = RefundResult.validationError ∧
    (refund_payment c4State 1 (mkRefundReq (some 0) ("c4-refund-key")) true).2
        ≠ RefundResult.invalidAmount 10000 := by
  decide

theorem fullRefund_eq (q : Payment) :
    fullRefund q
      = { q with refunded_amount := q.amount, status := PaymentStatus.REFUNDED } := by
  unfold fullRefund
  have h : q.refunded_amount + (q.amount - q.refunded_amount) = q.amount := by omega
  rw [h]

theorem cancel_noop (st : ServiceState) (oid : Int) (b : Bool)
    (h : st.payments.filter (fun q => decide (q.order_id = oid) &&
        decide (q.status = PaymentStatus.SUCCESS)) = []) :
    handle_order_cancellation st (some oid) b = st := by
  simp only [handle_order_cancellation, h, List.foldl_nil]

/-- Claim C6: processing an order.cancelled event refunds exactly the
payments of that order whose status is strictly SUCCESS (all other
payments, in particular FAILED, PENDING, PARTIAL_REFUND and REFUNDED ones,
are untouched), each for its full remaining amount with final status
REFUNDED; it emits exactly one payment.refunded event per refunded payment;
and reprocessing the same cancellation leaves the state - payments and
events included - unchanged. -/
theorem claim_C6 (st : ServiceState) (oid : Int) (b b2 : Bool) (hInv : stateInv st) :
    (handle_order_cancellation st (some oid) b).payments
        = st.payments.map (fun q =>
            if q.order_id = oid ∧ q.status = PaymentStatus.SUCCESS
            then { q with refunded_amount := q.amount, status := PaymentStatus.REFUNDED }
            else q) ∧
    (handle_order_cancellation st (some oid) b).events
        = st.events ++ (st.payments.filter (fun q => decide (q.order_id = oid) &&
            decide (q.status = PaymentStatus.SUCCESS))).map cancellationEvent ∧
    handle_order_cancellation (handle_order_cancellation st (some oid) b) (some oid) b2
        = handle_order_cancellation st (some oid) b := by
  obtain ⟨hinv, hfr, hpw⟩ := hInv
  obtain ⟨hP, hE, hK, hN, hG⟩ := handle_cancel_chars st oid b hpw
  have hsucc_lt : ∀ q ∈ st.payments, q.status = PaymentStatus.SUCCESS →
      q.refunded_amount < q.amount := by
    intro q hq hqs
    have h0 := inv_success_refunded_zero q (hinv q hq) hqs
    have ha := (hinv q hq).1
    omega
  refine ⟨?_, ?_, ?_⟩
  · rw [hP]
    refine map_congr_mem _ _ _ (fun q hq => ?_)
    unfold cancelUpd
    by_cases hc : q.order_id = oid ∧ q.status = PaymentStatus.SUCCESS
    · rw [if_pos hc, if_pos hc]
      unfold fullRefundIf
      rw [if_pos (hsucc_lt q hq hc.2), fullRefund_eq]
    · rw [if_neg hc, if_neg hc]
  · rw [hE]
    congr 1
    congr 1
    apply List.filter_eq_self.mpr
    intro t ht
    have ht' := List.mem_filter.mp ht
    have hts : t.status = PaymentStatus.SUCCESS := by
      have h2 := ht'.2
      simp only [Bool.and_eq_true, decide_eq_true_eq] at h2
      exact h2.2
    exact decide_eq_true (hsucc_lt t ht'.1 hts)
  · refine cancel_noop _ oid b2 ?_
    rw [hP, List.filter_eq_nil_iff]
    intro q1 hq1
    obtain ⟨q0, hq0, rfl⟩ := List.mem_map.mp hq1
    unfold cancelUpd
    by_cases hc : q0.order_id = oid ∧ q0.status = PaymentStatus.SUCCESS
    · rw [if_pos hc]
      unfold fullRefundIf
      rw [if_pos (hsucc_lt q0 hq0 hc.2)]
      simp [fullRefund]
    · rw [if_neg hc]
      simp only [Bool.and_eq_true, decide_eq_true_eq, not_and]
      intro h1 h2
      exact hc ⟨h1, h2⟩

/-- Witness for claim C6: an order with one SUCCESS payment of 50.00 gets
exactly one full cancellation refund and one payment.refunded event, and
redelivering the cancellation changes nothing. -/
theorem claim_C6_witness :
    (handle_order_cancellation c6State (some 11) true).payments
        = c6State.payments.map (fun q =>
            if q.order_id = 11 ∧ q.status = PaymentStatus.SUCCESS
            then { q with refunded_amount := q.amount, status := PaymentStatus.REFUNDED }
            else q) ∧
    (handle_order_cancellation c6State (some 11) true).events
        = c6State.events ++ (c6State.payments.filter (fun q => decide (q.order_id = 11) &&
            decide (q.status = PaymentStatus.SUCCESS))).map cancellationEvent ∧
    handle_order_cancellation (handle_order_cancellation c6State (some 11) true)
        (some 11) false
        = handle_order_cancellation c6State (some 11) true :=
  claim_C6 c6State 11 true false (by decide)

theorem cancelFold_events_all (b : Bool) :
    ∀ (ts : List Payment) (st : ServiceState),
      (ts.foldl (cancelStep b) st).events
        = st.events ++ (ts.filter (fun t => decide (t.refunded_amount < t.amount))).map
            cancellationEvent := by
  intro ts
  induction ts with
  | nil => intro st; simp
  | cons t ts ih =>
    intro st
    rw [List.foldl_cons, ih, cancelStep_events, List.filter_cons]
    by_cases hg : t.refunded_amount < t.amount
    · rw [if_pos hg, if_pos (by simpa using hg)]
      simp [List.append_assoc]
    · rw [if_neg hg, if_neg (by simpa using hg)]
      simp

theorem refundEventMsg_fields (pid : Nat) (p : Payment) (ra : Int) (reason : String) :
    (refundEventMsg pid p ra reason).event_type = "payment.refunded" ∧
    hasField (refundEventMsg pid p ra reason) ("payment_id") = true ∧
    hasField (refundEventMsg pid p ra reason) ("order_id") = true ∧
    hasField (refundEventMsg pid p ra reason) ("refund_amount") = true ∧
    hasField (refundEventMsg pid p ra reason) ("total_refunded") = true ∧
    hasField (refundEventMsg pid p ra reason) ("reason") = true := by
  refine ⟨rfl, ?_, ?_, ?_, ?_, ?_⟩ <;> rfl

theorem cancellationEvent_fields (p : Payment) :
    (cancellationEvent p).event_type = "payment.refunded" ∧
    hasField (cancellationEvent p) ("payment_id") = true ∧
    hasField (cancellationEvent p) ("order_id") = true ∧
    hasField (cancellationEvent p) ("refund_amount") = true ∧
    hasField (cancellationEvent p) ("reason") = true ∧
    hasField (cancellationEvent p) ("total_refunded") = false := by
  refine ⟨rfl, ?_, ?_, ?_, ?_, ?_⟩ <;> rfl

theorem refundApply_events (st : ServiceState) (pid : Nat) (p : Payment)
    (req : RefundRequest) (r : IdemRecord) (b : Bool) :
    (refundApply st pid p req r b).1.events = st.events ∨
    (refundApply st pid p req r b).1.events
      = st.events ++ [refundEventMsg pid (refundUpdated p req) (refundAmountOf p req)
          (req.reason.getD ("Customer request"))] := by
  by_cases hlt : p.amount - p.refunded_amount < refundAmountOf p req
  · left
    simp [refundApply, hlt]
  · right
    simp [refundApply, hlt]

theorem refund_events_cases (st : ServiceState) (pid : Nat) (req : RefundRequest)
    (b : Bool) :
    (refund_payment st pid req b).1.events = st.events ∨
    ∃ p2 ra reason, (refund_payment st pid req b).1.events
      = st.events ++ [refundEventMsg pid p2 ra reason] := by
  cases hv : refundValid req with
  | false => left; simp [refund_payment, hv]
  | true =>
    cases hfp : findPayment st pid with
    | none => left; simp [refund_payment, hv, hfp]
    | some p =>
      by_cases hs : p.status = PaymentStatus.SUCCESS
      · cases hk : findKey st (refundScopedKey pid req.idempotency_key) with
        | some r =>
          by_cases hrs : r.status = IdemStatus.COMPLETED
          · left; simp [refund_payment, hv, hfp, hs, hk, hrs]
          · have hred : refund_payment st pid req b = refundApply st pid p req r b := by
              simp [refund_payment, hv, hfp, hs, hk, hrs]
            rw [hred]
            rcases refundApply_events st pid p req r b with h | h
            · left; exact h
            · right; exact ⟨_, _, _, h⟩
        | none =>
          have hred : refund_payment st pid req b
              = refundApply { st with idemKeys := st.idemKeys ++
                  [{ key := refundScopedKey pid req.idempotency_key,
                     payment := some pid, status := IdemStatus.PROCESSING }] }
                pid p req
                { key := refundScopedKey pid req.idempotency_key,
                  payment := some pid, status := IdemStatus.PROCESSING } b := by
            simp [refund_payment, hv, hfp, hs, hk]
          rw [hred]
          rcases refundApply_events
              { st with idemKeys := st.idemKeys ++
                  [{ key := refundScopedKey pid req.idempotency_key,
                     payment := some pid, status := IdemStatus.PROCESSING }] }
              pid p req
              { key := refundScopedKey pid req.idempotency_key,
                payment := some pid, status := IdemStatus.PROCESSING } b with h | h
          · left; exact h
          · right; exact ⟨_, _, _, h⟩
      · left; simp [refund_payment, hv, hfp, hs]

/-- Claim C7 (amended): every payment.refunded event newly published by the
client refund operation carries payment_id, order_id, refund_amount,
total_refunded and reason; every payment.refunded event newly published by
the cancellation handler carries payment_id, order_id, refund_amount and
reason but omits total_refunded.  (As originally stated - that every
payment.refunded event carries all five fields - the claim is false; see
the counterexample.) -/
theorem claim_C7_amended (st : ServiceState) (pid : Nat) (req : RefundRequest)
    (b : Bool) (st2 : ServiceState) (oid : Option Int) (b2 : Bool) :
    (∀ e ∈ (refund_payment st pid req b).1.events, e ∈ st.events ∨
      (e.event_type = "payment.refunded" ∧
       hasField e ("payment_id") = true ∧ hasField e ("order_id") = true ∧
       hasField e ("refund_amount") = true ∧ hasField e ("total_refunded") = true ∧
       hasField e ("reason") = true)) ∧
    (∀ e ∈ (handle_order_cancellation st2 oid b2).events, e ∈ st2.events ∨
      (e.event_type = "payment.refunded" ∧
       hasField e ("payment_id") = true ∧ hasField e ("order_id") = true ∧
       hasField e ("refund_amount") = true ∧ hasField e ("reason") = true ∧
       hasField e ("total_refunded") = false)) := by
  refine ⟨?_, ?_⟩
  · intro e he
    rcases refund_events_cases st pid req b with h | ⟨p2, ra, reason, h⟩
    · rw [h] at he
      exact Or.inl he
    · rw [h] at he
      rcases List.mem_append.mp he with he | he
      · exact Or.inl he
      · have hee : e = refundEventMsg pid p2 ra reason := by simpa using he
        rw [hee]
        obtain ⟨f1, f2, f3, f4, f5, f6⟩ := refundEventMsg_fields pid p2 ra reason
        exact Or.inr ⟨f1, f2, f3, f4, f5, f6⟩
  · intro e he
    cases oid with
    | none => exact Or.inl he
    | some o =>
      have hE : (handle_order_cancellation st2 (some o) b2).events
          = st2.events ++ (((st2.payments.filter (fun q => decide (q.order_id = o) &&
              decide (q.status = PaymentStatus.SUCCESS))).filter
                (fun t => decide (t.refunded_amount < t.amount))).map cancellationEvent) := by
        simp only [handle_order_cancellation]
        exact cancelFold_events_all b2 _ st2
      rw [hE] at he
      rcases List.mem_append.mp he with he | he
      · exact Or.inl he
      · obtain ⟨t, ht, rfl⟩ := List.mem_map.mp he
        obtain ⟨f1, f2, f3, f4, f5, f6⟩ := cancellationEvent_fields t
        exact Or.inr ⟨f1, f2, f3, f4, f5, f6⟩

/-- Witness for claim C7 (amended): the concrete cancellation-driven
payment.refunded event carries payment_id, order_id, refund_amount and
reason but no total_refunded field. -/
theorem claim_C7_witness :
    (cancellationEvent c7Pay).event_type = "payment.refunded" ∧
    hasField (cancellationEvent c7Pay) ("payment_id") = true ∧
    hasField (cancellationEvent c7Pay) ("order_id") = true ∧
    hasField (cancellationEvent c7Pay) ("refund_amount") = true ∧
    hasField (cancellationEvent c7Pay) ("reason") = true ∧
    hasField (cancellationEvent c7Pay) ("total_refunded") = false :=
  ((claim_C7_amended c7State 1 (mkRefundReq none ("c7-w")) true c7State (some 9) true).2
      (cancellationEvent c7Pay) (by decide)).resolve_left (by decide)

/-- Counterexample to claim C7 as stated: the cancellation handler publishes
a payment.refunded event that lacks the total_refunded field. -/
theorem claim_C7_counterexample :
    cancellationEvent c7Pay ∈ (handle_order_cancellation c7State (some 9) true).events ∧
    (cancellationEvent c7Pay).event_type = "payment.refunded" ∧
    hasField (cancellationEvent c7Pay) ("total_refunded") = false := by
  decide

theorem chargeProcess_broker (st : ServiceState) (req : ChargeRequest)
    (r : IdemRecord) (gw : GatewayOutcome) (b1 b2 : Bool) :
    (chargeProcess st req r gw b1).1.payments = (chargeProcess st req r gw b2).1.payments ∧
    (chargeProcess st req r gw b1).1.idemKeys = (chargeProcess st req r gw b2).1.idemKeys ∧
    (chargeProcess st req r gw b1).1.events = (chargeProcess st req r gw b2).1.events ∧
    (chargeProcess st req r gw b1).2 = (chargeProcess st req r gw b2).2 := by
  cases gw <;> cases b1 <;> cases b2 <;> exact ⟨rfl, rfl, rfl, rfl⟩

theorem refundApply_broker (st : ServiceState) (pid : Nat) (p : Payment)
    (req : RefundRequest) (r : IdemRecord) (b1 b2 : Bool) :
    (refundApply st pid p req r b1).1.payments = (refundApply st pid p req r b2).1.payments ∧
    (refundApply st pid p req r b1).1.idemKeys = (refundApply st pid p req r b2).1.idemKeys ∧
    (refundApply st pid p req r b1).1.events = (refundApply st pid p req r b2).1.events ∧
    (refundApply st pid p req r b1).2 = (refundApply st pid p req r b2).2 := by
  by_cases hlt : p.amount - p.refunded_amount < refundAmountOf p req
  · simp [refundApply, hlt]
  · cases b1 <;> cases b2 <;> simp [refundApply, hlt]

theorem charge_broker (st : ServiceState) (req : ChargeRequest) (gw : GatewayOutcome)
    (b1 b2 : Bool) :
    (charge_payment st req gw b1).1.payments = (charge_payment st req gw b2).1.payments ∧
    (charge_payment st req gw b1).1.idemKeys = (charge_payment st req gw b2).1.idemKeys ∧
    (charge_payment st req gw b1).1.events = (charge_payment st req gw b2).1.events ∧
    (charge_payment st req gw b1).2 = (charge_payment st req gw b2).2 := by
  cases hv : chargeValid req with
  | false => simp [charge_payment, hv]
  | true =>
    cases hk : findKey st req.idempotency_key with
    | none =>
      have h1 : ∀ bb, charge_payment st req gw bb
          = chargeProcess { st with idemKeys := st.idemKeys ++
              [{ key := req.idempotency_key, payment := none,
                 status := IdemStatus.PROCESSING }] } req
            { key := req.idempotency_key, payment := none,
              status := IdemStatus.PROCESSING } gw bb := by
        intro bb
        simp [charge_payment, hv, hk]
      rw [h1 b1, h1 b2]
      exact chargeProcess_broker _ req _ gw b1 b2
    | some r =>
      by_cases hrs : r.status = IdemStatus.COMPLETED
      · cases hp : r.payment with
        | some pid =>
          cases hfp : findPayment st pid with
          | some p => simp [charge_payment, hv, hk, hrs, hp, hfp]
          | none => simp [charge_payment, hv, hk, hrs, hp, hfp]
        | none =>
          have h1 : ∀ bb, charge_payment st req gw bb = chargeProcess st req r gw bb := by
            intro bb
            simp [charge_payment, hv, hk, hrs, hp]
          rw [h1 b1, h1 b2]
          exact chargeProcess_broker st req r gw b1 b2
      · by_cases hps : r.status = IdemStatus.PROCESSING
        · simp [charge_payment, hv, hk, hrs, hps]
        · have h1 : ∀ bb, charge_payment st req gw bb = chargeProcess st req r gw bb := by
            intro bb
            simp [charge_payment, hv, hk, hrs, hps]
          rw [h1 b1, h1 b2]
          exact chargeProcess_broker st req r gw b1 b2

theorem refund_broker (st : ServiceState) (pid : Nat) (req : RefundRequest)
    (b1 b2 : Bool) :
    (refund_payment st pid req b1).1.payments = (refund_payment st pid req b2).1.payments ∧
    (refund_payment st pid req b1).1.idemKeys = (refund_payment st pid req b2).1.idemKeys ∧
    (refund_payment st pid req b1).1.events = (refund_payment st pid req b2).1.events ∧
    (refund_payment st pid req b1).2 = (refund_payment st pid req b2).2 := by
  cases hv : refundValid req with
  | false => simp [refund_payment, hv]
  | true =>
    cases hfp : findPayment st pid with
    | none => simp [refund_payment, hv, hfp]
    | some p =>
      by_cases hs : p.status = PaymentStatus.SUCCESS
      · cases hk : findKey st (refundScopedKey pid req.idempotency_key) with
        | some r =>
          by_cases hrs : r.status = IdemStatus.COMPLETED
          · simp [refund_payment, hv, hfp, hs, hk, hrs]
          · have h1 : ∀ bb, refund_payment st pid req bb = refundApply st pid p req r bb := by
              intro bb
              simp [refund_payment, hv, hfp, hs, hk, hrs]
            rw [h1 b1, h1 b2]
            exact refundApply_broker st pid p req r b1 b2
        | none =>
          have h1 : ∀ bb, refund_payment st pid req bb
              = refundApply { st with idemKeys := st.idemKeys ++
                  [{ key := refundScopedKey pid req.idempotency_key,
                     payment := some pid, status := IdemStatus.PROCESSING }] }
                pid p req
                { key := refundScopedKey pid req.idempotency_key,
                  payment := some pid, status := IdemStatus.PROCESSING } bb := by
            intro bb
            simp [refund_payment, hv, hfp, hs, hk]
          rw [h1 b1, h1 b2]
          exact refundApply_broker _ pid p req _ b1 b2
      · simp [refund_payment, hv, hfp, hs]

/-- Claim C8: a failing event broker never changes the outcome of a charge
or a refund: `publish_payment_event` absorbs the failure and returns False
instead of raising, and for any input the committed Payment and
IdempotencyRecord state, the messages handed to the publisher, and the
returned result are identical whether publication succeeds or fails. -/
theorem claim_C8 (st : ServiceState) (req : ChargeRequest) (gw : GatewayOutcome)
    (pid : Nat) (rreq : RefundRequest) (b1 b2 : Bool) (msg : EventMsg) :
    (publish_payment_event false msg st).1 = false ∧
    (publish_payment_event true msg st).1 = true ∧
    (charge_payment st req gw b1).1.payments = (charge_payment st req gw b2).1.payments ∧
    (charge_payment st req gw b1).1.idemKeys = (charge_payment st req gw b2).1.idemKeys ∧
    (charge_payment st req gw b1).1.events = (charge_payment st req gw b2).1.events ∧
    (charge_payment st req gw b1).2 = (charge_payment st req gw b2).2 ∧
    (refund_payment st pid rreq b1).1.payments = (refund_payment st pid rreq b2).1.payments ∧
    (refund_payment st pid rreq b1).1.idemKeys = (refund_payment st pid rreq b2).1.idemKeys ∧
    (refund_payment st pid rreq b1).1.events = (refund_payment st pid rreq b2).1.events ∧
    (refund_payment st pid rreq b1).2 = (refund_payment st pid rreq b2).2 := by
  obtain ⟨hc1, hc2, hc3, hc4⟩ := charge_broker st req gw b1 b2
  obtain ⟨hr1, hr2, hr3, hr4⟩ := refund_broker st pid rreq b1 b2
  exact ⟨publish_fst false msg st, publish_fst true msg st,
    hc1, hc2, hc3, hc4, hr1, hr2, hr3, hr4⟩
